import Mathlib

/-!
Verification of the Spritz stream-cipher / hash package (spritz.go).

The first half of this file is a shallow embedding of the Go source:
the `state` structure and its methods mirror the Go `state` struct and its
methods line by line (Go slices become `List Nat`, Go `int` values that are
always non-negative become `Nat`, the hash size stays an `Int` because the
Go API accepts negative sizes).  `digest.Sum` mirrors the Go code faithfully,
including the fact that `s := *d.s` copies the registers but the slice
header inside the copy still points at the same backing array, so array
writes made by `Sum` are visible in the live accumulator while register
writes are not.

The second half defines a packed mirror of the permutation array (one big
natural number, eight bits per entry) together with a proven simulation
relation; it exists only to make concrete executions of the cipher cheap
enough for the kernel to evaluate, and every concrete fact is transported
back to the list-level model through the simulation theorems.
-/

set_option maxRecDepth 1000000

namespace Spritz

/-- Mirror of the Go `state` struct: permutation array `s` of length `n`
plus the registers.  All values are non-negative in every reachable state,
so `Nat` is used. -/
structure state where
  n : Nat
  s : List Nat
  a : Nat
  i : Nat
  j : Nat
  k : Nat
  w : Nat
  z : Nat
deriving Repr, DecidableEq

/-- Go `(*state).initialize`: the `n` argument is ignored; the state is
overwritten with `n = 256`, the identity permutation, zero registers and
`w = 1`. -/
def state.initSt (_size : Int) : state :=
  { n := 256, s := List.range 256, a := 0, i := 0, j := 0, k := 0, w := 1, z := 0 }

/-- Go `(*state).update`: one mixing round. -/
def state.update (st : state) : state :=
  let i := (st.i + st.w) % st.n
  let y := (st.j + st.s.getD i 0) % st.n
  let j := (st.k + st.s.getD y 0) % st.n
  let k := (i + st.k + st.s.getD j 0) % st.n
  let t := st.s.getD i 0
  { st with i := i, j := j, k := k, s := (st.s.set i (st.s.getD j 0)).set j t }

/-- Go `(*state).output`: computes the next keystream value into `z`.
The emitted value is the `z` field of the returned state. -/
def state.output (st : state) : state :=
  let y1 := (st.z + st.k) % st.n
  let x1 := (st.i + st.s.getD y1 0) % st.n
  let y2 := (st.j + st.s.getD x1 0) % st.n
  { st with z := st.s.getD y2 0 }

/-- One iteration of the loop body of Go `(*state).crush`. -/
def crushStep (acc : state) (idx : Nat) : state :=
  let y := acc.n - 1 - idx
  let x1 := acc.s.getD idx 0
  let x2 := acc.s.getD y 0
  if x1 > x2 then { acc with s := (acc.s.set idx x2).set y x1 }
  else { acc with s := (acc.s.set idx x1).set y x2 }

/-- Go `(*state).crush`: one compare-and-order pass over the array halves. -/
def state.crush (st : state) : state :=
  (List.range (st.n / 2)).foldl crushStep st

/-- `iterUpdate m st` applies `update` `m` times, first application first;
this is the loop inside Go `(*state).whip`. -/
def iterUpdate : Nat → state → state
  | 0, st => st
  | m + 1, st => iterUpdate m st.update

/-- Go `(*state).whip`: `2n` update rounds, then advance `w` by 2. -/
def state.whip (st : state) : state :=
  let st' := iterUpdate (st.n * 2) st
  { st' with w := (st'.w + 2) % st'.n }

/-- Go `(*state).shuffle`: whip, crush, whip, crush, whip, then reset `a`. -/
def state.shuffle (st : state) : state :=
  { st.whip.crush.whip.crush.whip with a := 0 }

/-- Go `(*state).absorbStop`. -/
def state.absorbStop (st : state) : state :=
  let st' := if st.a = st.n / 2 then st.shuffle else st
  { st' with a := (st'.a + 1) % st'.n }

/-- Go `(*state).absorbNibble`. -/
def state.absorbNibble (st : state) (x : Nat) : state :=
  let st' := if st.a = st.n / 2 then st.shuffle else st
  let y := (st'.n / 2 + x) % st'.n
  let t := st'.s.getD st'.a 0
  { st' with s := (st'.s.set st'.a (st'.s.getD y 0)).set y t,
             a := (st'.a + 1) % st'.n }

/-- Go `(*state).absorbValue`: low nibble first, then high nibble. -/
def state.absorbValue (st : state) (b : Nat) : state :=
  let d := st.n / 16
  (st.absorbNibble (b % d)).absorbNibble (b / d)

/-- Go `(*state).absorb`. -/
def state.absorb (st : state) (msg : List Nat) : state :=
  msg.foldl state.absorbValue st

/-- Go `(*state).drip`: the emitted value is the first component. -/
def state.drip (st : state) : Nat × state :=
  let st' := if st.a > 0 then st.shuffle else st
  let st'' := st'.update.output
  (st''.z, st'')

/-- The output-collection loop of Go `(*state).squeeze`. -/
def dripN : Nat → state → List Nat × state
  | 0, st => ([], st)
  | m + 1, st =>
    let p := st.drip
    let q := dripN m p.2
    (p.1 :: q.1, q.2)

/-- Go `(*state).squeeze`. -/
def state.squeeze (st : state) (count : Nat) : List Nat × state :=
  dripN count (if st.a > 0 then st.shuffle else st)

/-- Go `(*state).keySetup`. -/
def state.keySetup (st : state) (key : List Nat) : state :=
  let st' := st.absorb key
  if st'.a > 0 then st'.shuffle else st'

/-- Go `stream`: wraps the cipher state. -/
structure stream where
  s : state
deriving Repr, DecidableEq

/-- Go `NewStream`: initialize then absorb the key. -/
def NewStream (key : List Nat) : stream :=
  ⟨(state.initSt 256).keySetup key⟩

/-- The loop body of Go `stream.XORKeyStream`: each destination byte is the
source byte xor-ed with `byte(drip())` (the `byte` conversion is `% 256`). -/
def xorDrip : List Nat → state → List Nat × state
  | [], st => ([], st)
  | v :: vs, st =>
    let p := st.drip
    let q := xorDrip vs p.2
    (Nat.xor v (p.1 % 256) :: q.1, q.2)

/-- Go `stream.XORKeyStream`: returns the destination bytes and the advanced
cipher (the Go method mutates the shared state through the pointer). -/
def stream.XORKeyStream (sc : stream) (src : List Nat) : List Nat × stream :=
  let p := xorDrip src sc.s
  (p.1, ⟨p.2⟩)

/-- Go `digest`: the configured output size (a Go `int`, so it may be
negative) and the owned state. -/
structure digest where
  size : Int
  s : state
deriving Repr, DecidableEq

/-- Go `NewHash`: stores the size unchecked and resets the fresh state.
There is no validation of `size` anywhere in the constructor. -/
def NewHash (size : Int) : digest :=
  { size := size, s := state.initSt 256 }

/-- Go `digest.Sum`.  `s := *d.s` copies the struct, but the `s []int`
field of the copy is a slice header sharing the live backing array, so the
array swaps performed below land in the live accumulator while the register
changes stay on the copy; the returned digest therefore keeps the original
registers of `d` but takes the array produced by the squeeze.  For a
negative size Go panics at `make([]int, d.size)`; that is modelled as
`none`. -/
def digest.Sum (d : digest) (b : List Nat) : Option (List Nat × digest) :=
  if d.size < 0 then none
  else
    let s1 := d.s.absorbStop
    let s2 := s1.absorb [d.size.toNat]
    let p := s2.squeeze d.size.toNat
    let h := p.1.map (fun v => v % 256)
    some (b ++ h, { d with s := { d.s with s := p.2.s } })

/-- Go `digest.Write`: absorbs the message into the live state; the error
is always `nil` and the returned count is the input length. -/
def digest.Write (d : digest) (p : List Nat) : Nat × digest :=
  (p.length, { d with s := d.s.absorb p })

/-- Go `digest.Size`. -/
def digest.Size (d : digest) : Int := d.size

/-- Go `digest.Reset`. -/
def digest.Reset (d : digest) : digest :=
  { d with s := state.initSt 256 }

/-- Go `digest.BlockSize`. -/
def digest.BlockSize (_d : digest) : Nat := 1

/-! ### Generic fold helpers -/

theorem foldl_pres {α β : Type} {Q : α → Prop} (f : α → β → α)
    (hf : ∀ acc x, Q acc → Q (f acc x)) :
    ∀ (l : List β) (st : α), Q st → Q (l.foldl f st)
  | [], _, h => h
  | x :: xs, st, h => foldl_pres f hf xs (f st x) (hf st x h)

theorem foldl_pres_mem {α β : Type} {Q : α → Prop} (f : α → β → α) :
    ∀ (l : List β) (st : α), Q st →
      (∀ acc x, x ∈ l → Q acc → Q (f acc x)) → Q (l.foldl f st)
  | [], _, h, _ => h
  | x :: xs, st, h, hf =>
    foldl_pres_mem f xs (f st x) (hf st x (List.mem_cons_self x xs) h)
      (fun acc y hy hacc => hf acc y (List.mem_cons_of_mem x hy) hacc)

/-! ### The state size `n` is never modified by any primitive -/

@[simp] theorem n_update (st : state) : st.update.n = st.n := rfl

@[simp] theorem n_output (st : state) : st.output.n = st.n := rfl

@[simp] theorem n_crushStep (acc : state) (idx : Nat) : (crushStep acc idx).n = acc.n := by
  unfold crushStep; dsimp only; split <;> rfl

@[simp] theorem n_crush (st : state) : st.crush.n = st.n :=
  foldl_pres (Q := fun t => t.n = st.n) crushStep
    (fun acc idx h => (n_crushStep acc idx).trans h) _ st rfl

@[simp] theorem n_iterUpdate : ∀ (m : Nat) (st : state), (iterUpdate m st).n = st.n
  | 0, _ => rfl
  | m + 1, st => (n_iterUpdate m st.update).trans (n_update st)

@[simp] theorem n_whip (st : state) : st.whip.n = st.n := by
  unfold state.whip; simp

@[simp] theorem n_shuffle (st : state) : st.shuffle.n = st.n := by
  unfold state.shuffle; simp

@[simp] theorem a_shuffle (st : state) : st.shuffle.a = 0 := rfl

@[simp] theorem n_absorbStop (st : state) : st.absorbStop.n = st.n := by
  unfold state.absorbStop; split <;> simp

@[simp] theorem n_absorbNibble (st : state) (x : Nat) : (st.absorbNibble x).n = st.n := by
  unfold state.absorbNibble; split <;> simp

@[simp] theorem n_absorbValue (st : state) (b : Nat) : (st.absorbValue b).n = st.n := by
  unfold state.absorbValue; simp [n_absorbNibble]

@[simp] theorem n_absorb (st : state) (msg : List Nat) : (st.absorb msg).n = st.n :=
  foldl_pres (Q := fun t => t.n = st.n) state.absorbValue
    (fun acc b h => (n_absorbValue acc b).trans h) msg st rfl

@[simp] theorem n_drip (st : state) : st.drip.2.n = st.n := by
  unfold state.drip; split <;> simp

@[simp] theorem n_dripN : ∀ (m : Nat) (st : state), (dripN m st).2.n = st.n
  | 0, _ => rfl
  | m + 1, st => by
    show (dripN m st.drip.2).2.n = st.n
    rw [n_dripN m st.drip.2, n_drip]

@[simp] theorem n_squeeze (st : state) (c : Nat) : (st.squeeze c).2.n = st.n := by
  unfold state.squeeze; split <;> simp

@[simp] theorem n_keySetup (st : state) (key : List Nat) : (st.keySetup key).n = st.n := by
  unfold state.keySetup; dsimp only; split <;> simp

/-! ### Small `getD`/`set` helpers -/

theorem getD_set_self (l : List Nat) (idx v : Nat) (h : idx < l.length) :
    (l.set idx v).getD idx 0 = v := by
  rw [List.getD_eq_getElem?_getD, List.getElem?_set_self h]; rfl

theorem getD_set_ne (l : List Nat) (idx m v : Nat) (h : idx ≠ m) :
    (l.set idx v).getD m 0 = l.getD m 0 := by
  rw [List.getD_eq_getElem?_getD, List.getElem?_set_ne h, ← List.getD_eq_getElem?_getD]

/-! ### C4 -/

/-- C4: `NewHash` performs no validation at all: for the negative size `-1`
it returns a handle that stores `-1` uncoerced, whose `Write` succeeds and
whose `Size` reports `-1` — construction does not fail fast (in Go the
failure only surfaces later, as a panic inside `Sum` at
`make([]int, d.size)`).  This contradicts the claim that construction with
a negative size rejects immediately. -/
theorem newHash_accepts_negative_size :
    NewHash (-1) = { size := -1, s := state.initSt 256 } ∧
      ((NewHash (-1)).Write [0]).1 = 1 ∧ (NewHash (-1)).Size = -1 :=
  ⟨rfl, rfl, rfl⟩

/-! ### C7 -/

/-- The keystream of a cipher instance, observed by transforming `m` zero
bytes (a zero source reveals the raw keystream). -/
def keystreamBytes (sc : stream) (m : Nat) : List Nat :=
  (sc.XORKeyStream (List.replicate m 0)).1

/-- C7: determinism of the stream cipher — two instances independently
constructed from the same key produce bit-identical keystreams over any
equal number of requested bytes.  Construction and keystream generation are
pure functions of the key, so the two instances are equal states. -/
theorem stream_determinism (key : List Nat) (m : Nat) (sc1 sc2 : stream)
    (h1 : sc1 = NewStream key) (h2 : sc2 = NewStream key) :
    keystreamBytes sc1 m = keystreamBytes sc2 m := by
  subst h1; subst h2; rfl

/-- Witness for C7 at the concrete key `[]` and two requested bytes. -/
theorem stream_determinism_witness :
    keystreamBytes (NewStream []) 2 = keystreamBytes (NewStream []) 2 :=
  stream_determinism [] 2 _ _ rfl rfl

/-! ### C9 -/

/-- C9: `keySetup` always finishes with `a = 0` (either the absorb leaves
`a = 0` and the shuffle is skipped, or the shuffle runs and resets `a`),
and for the empty key on a clean state the whole call is the identity:
the shuffle is skipped because `a` stays 0. -/
theorem keySetup_finishes_clean (key : List Nat) (st : state) :
    (st.keySetup key).a = 0 ∧ (st.a = 0 → st.keySetup [] = st) := by
  constructor
  · unfold state.keySetup
    dsimp only
    split
    · exact a_shuffle _
    · omega
  · intro h
    unfold state.keySetup state.absorb
    simp [h]

/-- Witness for C9: a freshly initialized state has `a = 0`, and key setup
with the empty key leaves it untouched. -/
theorem keySetup_finishes_clean_witness :
    ((state.initSt 0).keySetup []).a = 0 ∧ (state.initSt 0).keySetup [] = state.initSt 0 :=
  ⟨(keySetup_finishes_clean [] _).1, (keySetup_finishes_clean [] _).2 rfl⟩

/-! ### C10 -/

/-- C10: `initialize` ignores its size argument — every call produces the
state with `n = 256`, the identity permutation `[0, …, 255]`, zero
registers and `w = 1`; consequently both public constructors only ever
build states with `n = 256`. -/
theorem initSt_ignores_size :
    ∀ m : Int,
      state.initSt m = state.initSt 256 ∧
      state.initSt m =
        { n := 256, s := List.range 256, a := 0, i := 0, j := 0, k := 0, w := 1, z := 0 } ∧
      (state.initSt m).s.length = 256 ∧
      (∀ sz : Int, (NewHash sz).s.n = 256) ∧
      (∀ key : List Nat, (NewStream key).s.n = 256) :=
  fun _ => ⟨rfl, rfl, by simp [state.initSt], fun _ => rfl, fun key => n_keySetup _ key⟩

/-! ### C6 -/

/-- The exact effect one `update` call is specified to have: the four
register assignments in order, the swap of `s[i']` and `s[j']`, and
everything else (including `w`, `z`, `a` and all other array entries)
unchanged. -/
def updateSpecProp (st : state) : Prop :=
  let i' := (st.i + st.w) % st.n
  let y := (st.j + st.s.getD i' 0) % st.n
  let j' := (st.k + st.s.getD y 0) % st.n
  let k' := (i' + st.k + st.s.getD j' 0) % st.n
  st.update.i = i' ∧ st.update.j = j' ∧ st.update.k = k' ∧
  st.update.w = st.w ∧ st.update.z = st.z ∧ st.update.a = st.a ∧ st.update.n = st.n ∧
  st.update.s.length = st.s.length ∧
  st.update.s.getD i' 0 = st.s.getD j' 0 ∧
  st.update.s.getD j' 0 = st.s.getD i' 0 ∧
  ∀ m : Nat, m ≠ i' → m ≠ j' → st.update.s.getD m 0 = st.s.getD m 0

/-- C6: `update` performs exactly `i := (i+w) % n`, `y := (j+s[i]) % n`,
`j := (k+s[y]) % n`, `k := (i+k+s[j]) % n`, then swaps `s[i]` and `s[j]`,
leaving the registers `w`, `z`, `a` and every other array entry unchanged. -/
theorem update_matches_spec (st : state) (hn : 0 < st.n) (hlen : st.s.length = st.n) :
    updateSpecProp st := by
  unfold updateSpecProp
  dsimp only
  set i' := (st.i + st.w) % st.n with hi'def
  set y := (st.j + st.s.getD i' 0) % st.n with hydef
  set j' := (st.k + st.s.getD y 0) % st.n with hj'def
  have hi' : i' < st.s.length := by rw [hlen]; exact Nat.mod_lt _ hn
  have hj' : j' < st.s.length := by rw [hlen]; exact Nat.mod_lt _ hn
  have hupd : st.update.s = (st.s.set i' (st.s.getD j' 0)).set j' (st.s.getD i' 0) := rfl
  refine ⟨rfl, rfl, rfl, rfl, rfl, rfl, rfl, ?_, ?_, ?_, ?_⟩
  · rw [hupd]; simp [List.length_set]
  · rw [hupd]
    by_cases hij : i' = j'
    · rw [hij, getD_set_self _ _ _ (by simpa using hj')]
    · rw [getD_set_ne _ _ _ _ (fun h => hij h.symm), getD_set_self _ _ _ hi']
  · rw [hupd, getD_set_self _ _ _ (by simpa using hj')]
  · intro m hmi hmj
    rw [hupd, getD_set_ne _ _ _ _ (fun h => hmj h.symm),
      getD_set_ne _ _ _ _ (fun h => hmi h.symm)]

/-- Witness for C6 on the freshly initialized state. -/
theorem update_matches_spec_witness :
    0 < (state.initSt 0).n ∧ (state.initSt 0).s.length = (state.initSt 0).n ∧
      updateSpecProp (state.initSt 0) :=
  ⟨by decide, by simp [state.initSt],
    update_matches_spec (state.initSt 0) (by decide) (by simp [state.initSt])⟩

/-! ### C8 -/

theorem absorb_append (st : state) (A B : List Nat) :
    st.absorb (A ++ B) = (st.absorb A).absorb B :=
  List.foldl_append _ _ A B

/-- Writing a list of chunks to the accumulator, in order. -/
def writeChunks (d : digest) (cs : List (List Nat)) : digest :=
  cs.foldl (fun acc c => (acc.Write c).2) d

theorem writeChunks_eq_write_join : ∀ (cs : List (List Nat)) (d : digest),
    writeChunks d cs = (d.Write cs.flatten).2
  | [], d => rfl
  | c :: cs, d => by
    show writeChunks ((d.Write c).2) cs = _
    rw [writeChunks_eq_write_join cs]
    show (_ : digest) = { d with s := d.s.absorb ((c :: cs).flatten) }
    rw [List.flatten_cons, absorb_append]
    rfl

/-- C8: chunk-boundary independence of hash absorption — writing any list
of (non-empty) chunks in order and then summing gives the same digest as
writing their concatenation in one call and summing; the accumulators are
in fact equal as states. -/
theorem write_chunk_independence (d : digest) (cs : List (List Nat))
    (_hne : ∀ c ∈ cs, c ≠ []) :
    (writeChunks d cs).Sum [] = ((d.Write cs.flatten).2).Sum [] := by
  rw [writeChunks_eq_write_join]

/-- Witness for C8 at the concrete split `[1] ++ [2]` of the message `[1, 2]`. -/
theorem write_chunk_independence_witness :
    (∀ c ∈ ([[1], [2]] : List (List Nat)), c ≠ []) ∧
      (writeChunks (NewHash 1) [[1], [2]]).Sum [] =
        (((NewHash 1).Write ([[1], [2]] : List (List Nat)).flatten).2).Sum [] :=
  ⟨by decide, write_chunk_independence (NewHash 1) [[1], [2]] (by decide)⟩

/-! ### Permutation machinery for C5 -/

/-- Pulling the element at position `m` to the front against a replacement:
`as[m] :: as.set m a` is a permutation of `a :: as`. -/
theorem perm_pull (a : Nat) : ∀ (as : List Nat) (m : Nat), m < as.length →
    List.Perm (as.getD m 0 :: as.set m a) (a :: as)
  | b :: bs, 0, _ => List.Perm.swap a b bs
  | b :: bs, m + 1, h => by
    have ih := perm_pull a bs m (Nat.lt_of_succ_lt_succ h)
    show List.Perm (bs.getD m 0 :: b :: bs.set m a) (a :: b :: bs)
    exact ((List.Perm.swap b (bs.getD m 0) _).trans (List.Perm.cons b ih)).trans
      (List.Perm.swap a b bs)

/-- Swapping two in-bounds entries of a list yields a permutation of it. -/
theorem set_set_swap_perm : ∀ (l : List Nat) (i j : Nat), i < l.length → j < l.length →
    List.Perm ((l.set i (l.getD j 0)).set j (l.getD i 0)) l
  | _ :: _, 0, 0, _, _ => List.Perm.refl _
  | a :: as, 0, j + 1, _, hj =>
    perm_pull a as j (Nat.lt_of_succ_lt_succ hj)
  | a :: as, i + 1, 0, hi, _ =>
    perm_pull a as i (Nat.lt_of_succ_lt_succ hi)
  | a :: as, i + 1, j + 1, hi, hj =>
    List.Perm.cons a
      (set_set_swap_perm as i j (Nat.lt_of_succ_lt_succ hi) (Nat.lt_of_succ_lt_succ hj))

/-- Setting an entry to its own value is the identity. -/
theorem set_getD_self : ∀ (l : List Nat) (i : Nat), i < l.length → l.set i (l.getD i 0) = l
  | _ :: _, 0, _ => rfl
  | a :: as, i + 1, h => congrArg (List.cons a) (set_getD_self as i (Nat.lt_of_succ_lt_succ h))

/-- The state invariant: a positive size, an in-range absorption counter,
and an array that is a permutation of `[0, …, n-1]`. -/
def SInv (st : state) : Prop :=
  0 < st.n ∧ st.a < st.n ∧ st.s.Perm (List.range st.n)

theorem SInv.len {st : state} (h : SInv st) : st.s.length = st.n := by
  simpa using h.2.2.length_eq

theorem SInv_update {st : state} (h : SInv st) : SInv st.update := by
  obtain ⟨hn, ha, hperm⟩ := h
  have hlen : st.s.length = st.n := by simpa using hperm.length_eq
  refine ⟨hn, ha, ?_⟩
  show List.Perm st.update.s (List.range st.n)
  have hswap := set_set_swap_perm st.s ((st.i + st.w) % st.n)
    ((st.k + st.s.getD ((st.j + st.s.getD ((st.i + st.w) % st.n) 0) % st.n) 0) % st.n)
    (by rw [hlen]; exact Nat.mod_lt _ hn) (by rw [hlen]; exact Nat.mod_lt _ hn)
  exact hswap.trans hperm

theorem SInv_output {st : state} (h : SInv st) : SInv st.output := h

theorem crushStep_perm (acc : state) (idx : Nat)
    (hlen : acc.s.length = acc.n) (hidx : idx < acc.n) :
    (crushStep acc idx).s.Perm acc.s := by
  unfold crushStep
  dsimp only
  have hy : acc.n - 1 - idx < acc.s.length := by rw [hlen]; omega
  have hidx' : idx < acc.s.length := by rw [hlen]; exact hidx
  split
  · exact set_set_swap_perm acc.s idx (acc.n - 1 - idx) hidx' hy
  · rw [set_getD_self acc.s idx hidx', set_getD_self acc.s _ hy]

theorem SInv_crush {st : state} (h : SInv st) : SInv st.crush := by
  obtain ⟨hn, ha, hperm⟩ := h
  have main : st.crush.n = st.n ∧ st.crush.a = st.a ∧ st.crush.s.Perm st.s := by
    refine foldl_pres_mem (Q := fun acc => acc.n = st.n ∧ acc.a = st.a ∧ acc.s.Perm st.s)
      crushStep (List.range (st.n / 2)) st ⟨rfl, rfl, List.Perm.refl _⟩ ?_
    intro acc idx hmem ⟨hqn, hqa, hqp⟩
    have hidx : idx < st.n / 2 := List.mem_range.1 hmem
    have hlen : acc.s.length = acc.n := by
      rw [hqn]
      have := hqp.length_eq
      rw [this]
      simpa using hperm.length_eq
    refine ⟨(n_crushStep acc idx).trans hqn, ?_, ?_⟩
    · have : (crushStep acc idx).a = acc.a := by unfold crushStep; dsimp only; split <;> rfl
      exact this.trans hqa
    · exact (crushStep_perm acc idx hlen (by omega)).trans hqp
  exact ⟨main.1 ▸ hn, main.1 ▸ main.2.1 ▸ ha, main.1 ▸ main.2.2.trans hperm⟩

theorem SInv_iterUpdate : ∀ (m : Nat) {st : state}, SInv st → SInv (iterUpdate m st)
  | 0, _, h => h
  | m + 1, _, h => SInv_iterUpdate m (SInv_update h)

theorem SInv_whip {st : state} (h : SInv st) : SInv st.whip := by
  have h' := SInv_iterUpdate (st.n * 2) h
  exact ⟨h'.1, h'.2.1, h'.2.2⟩

theorem SInv_shuffle {st : state} (h : SInv st) : SInv st.shuffle := by
  have h' := SInv_whip (SInv_crush (SInv_whip (SInv_crush (SInv_whip h))))
  exact ⟨h'.1, h'.1, h'.2.2⟩

theorem SInv_absorbStop {st : state} (h : SInv st) : SInv st.absorbStop := by
  unfold state.absorbStop
  dsimp only
  split
  · have h' := SInv_shuffle h
    exact ⟨h'.1, Nat.mod_lt _ h'.1, h'.2.2⟩
  · exact ⟨h.1, Nat.mod_lt _ h.1, h.2.2⟩

theorem SInv_absorbNibble {st : state} (x : Nat) (h : SInv st) : SInv (st.absorbNibble x) := by
  unfold state.absorbNibble
  dsimp only
  split
  case isTrue =>
    have h' := SInv_shuffle h
    refine ⟨h'.1, Nat.mod_lt _ h'.1, ?_⟩
    exact (set_set_swap_perm _ _ _ (by rw [h'.len]; exact h'.2.1)
      (by rw [h'.len]; exact Nat.mod_lt _ h'.1)).trans h'.2.2
  case isFalse =>
    refine ⟨h.1, Nat.mod_lt _ h.1, ?_⟩
    exact (set_set_swap_perm _ _ _ (by rw [h.len]; exact h.2.1)
      (by rw [h.len]; exact Nat.mod_lt _ h.1)).trans h.2.2

theorem SInv_absorbValue {st : state} (b : Nat) (h : SInv st) : SInv (st.absorbValue b) :=
  SInv_absorbNibble _ (SInv_absorbNibble _ h)

theorem SInv_absorb {st : state} (msg : List Nat) (h : SInv st) : SInv (st.absorb msg) :=
  foldl_pres state.absorbValue (fun _ b hq => SInv_absorbValue b hq) msg st h

theorem SInv_drip {st : state} (h : SInv st) : SInv st.drip.2 := by
  unfold state.drip
  dsimp only
  split
  · exact SInv_output (SInv_update (SInv_shuffle h))
  · exact SInv_output (SInv_update h)

theorem SInv_dripN : ∀ (m : Nat) {st : state}, SInv st → SInv (dripN m st).2
  | 0, _, h => h
  | m + 1, st, h => by
    show SInv (dripN m st.drip.2).2
    exact SInv_dripN m (SInv_drip h)

theorem SInv_squeeze {st : state} (c : Nat) (h : SInv st) : SInv (st.squeeze c).2 := by
  unfold state.squeeze
  split
  · exact SInv_dripN c (SInv_shuffle h)
  · exact SInv_dripN c h

theorem SInv_keySetup {st : state} (key : List Nat) (h : SInv st) : SInv (st.keySetup key) := by
  unfold state.keySetup
  dsimp only
  split
  · exact SInv_shuffle (SInv_absorb key h)
  · exact SInv_absorb key h

theorem SInv_initSt (m : Int) : SInv (state.initSt m) := by
  refine ⟨?_, ?_, ?_⟩ <;> simp [state.initSt]

/-- The state of the live accumulator after a successful `Sum` still
satisfies the invariant: `Sum` only swaps array entries (through the
aliased backing array), so the permutation property survives. -/
theorem SInv_sum_live {d : digest} (b : List Nat) (h : SInv d.s) :
    ∀ r, d.Sum b = some r → SInv r.2.s := by
  intro r hr
  unfold digest.Sum at hr
  split at hr
  · exact absurd hr (by simp)
  · dsimp only at hr
    have hpair := Option.some.inj hr
    have h2 : r.2 = { d with s := { d.s with s := ((d.s.absorbStop.absorb
        [d.size.toNat]).squeeze d.size.toNat).2.s } } := (congrArg Prod.snd hpair).symm
    rw [h2]
    refine ⟨h.1, h.2.1, ?_⟩
    have hpipe : SInv ((d.s.absorbStop.absorb [d.size.toNat]).squeeze d.size.toNat).2 :=
      SInv_squeeze _ (SInv_absorb _ (SInv_absorbStop h))
    have hn : ((d.s.absorbStop.absorb [d.size.toNat]).squeeze d.size.toNat).2.n = d.s.n := by
      simp
    show List.Perm ((d.s.absorbStop.absorb [d.size.toNat]).squeeze d.size.toNat).2.s
      (List.range d.s.n)
    rw [← hn]
    exact hpipe.2.2

/-! ### C5 -/

/-- The public hash operations. -/
inductive HashOp where
  | write (p : List Nat)
  | sum
  | reset

/-- One public hash call: `Write` absorbs, `Sum` feeds back the live
accumulator it leaves behind (the aliased array together with the original
registers), `Reset` reinitializes. -/
def hashStep (d : digest) : HashOp → digest
  | HashOp.write p => (d.Write p).2
  | HashOp.sum => ((d.Sum []).map Prod.snd).getD d
  | HashOp.reset => d.Reset

def runHashOps (d : digest) (ops : List HashOp) : digest := ops.foldl hashStep d

def runStreamOps (sc : stream) (srcs : List (List Nat)) : stream :=
  srcs.foldl (fun acc src => (acc.XORKeyStream src).2) sc

theorem SInv_xorDrip : ∀ (src : List Nat) {st : state}, SInv st → SInv (xorDrip src st).2
  | [], _, h => h
  | v :: vs, st, h => by
    show SInv (xorDrip vs st.drip.2).2
    exact SInv_xorDrip vs (SInv_drip h)

theorem SInv_hashStep {d : digest} (op : HashOp) (h : SInv d.s) : SInv (hashStep d op).s := by
  cases op with
  | write p => exact SInv_absorb p h
  | sum =>
    show SInv (((d.Sum []).map Prod.snd).getD d).s
    cases hr : d.Sum [] with
    | none => simpa [hr] using h
    | some r =>
      have := SInv_sum_live [] h r hr
      simpa [hr] using this
  | reset => exact SInv_initSt 256

/-- C5: after every sequence of public operations on a hash accumulator
(any mix of `Write`, `Sum`, `Reset`, any construction size) or on a stream
cipher (any sequence of `XORKeyStream` calls, any key), the internal array
contains each value of `[0, n)` exactly once — it is a permutation of
`List.range n`. -/
theorem permutation_invariant :
    (∀ (size : Int) (ops : List HashOp),
      ((runHashOps (NewHash size) ops).s.s).Perm
        (List.range (runHashOps (NewHash size) ops).s.n)) ∧
    (∀ (key : List Nat) (srcs : List (List Nat)),
      ((runStreamOps (NewStream key) srcs).s.s).Perm
        (List.range (runStreamOps (NewStream key) srcs).s.n)) := by
  constructor
  · intro size ops
    have : SInv (runHashOps (NewHash size) ops).s :=
      foldl_pres (Q := fun d => SInv d.s) hashStep
        (fun acc op hq => SInv_hashStep op hq) ops (NewHash size) (SInv_initSt 256)
    exact this.2.2
  · intro key srcs
    have : SInv (runStreamOps (NewStream key) srcs).s :=
      foldl_pres (Q := fun sc => SInv sc.s) (fun acc src => (acc.XORKeyStream src).2)
        (fun acc src hq => SInv_xorDrip src hq) srcs (NewStream key)
        (SInv_keySetup key (SInv_initSt 256))
    exact this.2.2

/-! ### C3: size aliasing in the domain-separation absorption -/

/-- The digest bytes produced by a fresh accumulator of the given size
after writing `M` and calling `Sum nil` (empty for a negative size, where
Go panics). -/
def hashDigestBytes (size : Int) (M : List Nat) : List Nat :=
  (((((NewHash size).Write M).2).Sum []).map Prod.fst).getD []

theorem absorbNibble_mod256 (st : state) (h : st.n = 256) (x : Nat) :
    st.absorbNibble (x + 256) = st.absorbNibble x := by
  unfold state.absorbNibble
  dsimp only
  have hy : ∀ nn : Nat, nn = 256 → (nn / 2 + (x + 256)) % nn = (nn / 2 + x) % nn := by
    intro nn h'; subst h'; omega
  split
  · rw [hy st.shuffle.n (by simp [h])]
  · rw [hy st.n h]

theorem absorbValue_add4096 (st : state) (h : st.n = 256) (sz : Nat) :
    st.absorbValue (sz + 4096) = st.absorbValue sz := by
  unfold state.absorbValue
  dsimp only
  rw [h]
  norm_num
  have h1 : (sz + 4096) % 16 = sz % 16 := by omega
  have h2 : (sz + 4096) / 16 = sz / 16 + 256 := by omega
  rw [h1, h2, absorbNibble_mod256 _ (by simp [h]) (sz / 16)]

theorem dripN_length : ∀ (m : Nat) (st : state), (dripN m st).1.length = m
  | 0, _ => rfl
  | m + 1, st => by
    show (st.drip.1 :: (dripN m st.drip.2).1).length = m + 1
    simp [dripN_length m]

theorem dripN_take : ∀ (m k : Nat) (st : state), (dripN (m + k) st).1.take m = (dripN m st).1
  | 0, _, st => by simp [dripN]
  | m + 1, k, st => by
    have hmk : m + 1 + k = (m + k) + 1 := by omega
    rw [hmk]
    show (st.drip.1 :: (dripN (m + k) st.drip.2).1).take (m + 1) =
      st.drip.1 :: (dripN m st.drip.2).1
    rw [List.take_succ_cons, dripN_take m k st.drip.2]

theorem hashDigestBytes_eq (sz : Nat) (M : List Nat) :
    hashDigestBytes (sz : Int) M =
      ((((state.initSt 256).absorb M).absorbStop.absorb [sz]).squeeze sz).1.map
        (fun v => v % 256) := by
  unfold hashDigestBytes digest.Sum NewHash digest.Write
  dsimp only
  rw [if_neg (by simp)]
  simp [Int.toNat_natCast]

/-- C3 (amended): sizes differing by exactly 4096 — not 256 — absorb an
identical domain-separation value during `Sum` (since `absorbValue` feeds
`size mod 16` and `size div 16` into `absorbNibble`, which reduces its
argument mod 256, only `size mod 16` together with `(size div 16) mod 256`
is distinguishable), so for identical messages the squeezed digests agree
on the shared prefix and differ only in length. -/
theorem size_alias_mod_4096 (sz : Nat) (M : List Nat) :
    hashDigestBytes (sz : Int) M = (hashDigestBytes ((sz : Int) + 4096) M).take sz ∧
    (hashDigestBytes (sz : Int) M).length = sz ∧
    (hashDigestBytes ((sz : Int) + 4096) M).length = sz + 4096 := by
  have hcast : (sz : Int) + 4096 = ((sz + 4096 : Nat) : Int) := by push_cast; ring
  rw [hcast, hashDigestBytes_eq sz M, hashDigestBytes_eq (sz + 4096) M]
  have habs : ((state.initSt 256).absorb M).absorbStop.absorb [sz + 4096] =
      ((state.initSt 256).absorb M).absorbStop.absorb [sz] := by
    show (((state.initSt 256).absorb M).absorbStop).absorbValue (sz + 4096) =
      (((state.initSt 256).absorb M).absorbStop).absorbValue sz
    exact absorbValue_add4096 _ (by simp [state.initSt]) sz
  rw [habs]
  unfold state.squeeze
  refine ⟨?_, by simp [dripN_length], by simp [dripN_length]⟩
  rw [← List.map_take, dripN_take]

/-! ### Packed mirror of the permutation state

The permutation array is mirrored as a single natural number holding the
256 entries as 8-bit digits (entry `i` in bits `8i .. 8i+7`).  The mirror
exists purely so that concrete runs of the cipher reduce to GMP
arithmetic; `sim_…` theorems below prove that it simulates the list-level
model exactly on every reachable state. -/

/-- Digit read: entry `i` of the packed array. -/
def aget (arr i : Nat) : Nat := (arr >>> (8 * i)) % 256

/-- Digit write: replace entry `i` of the packed array by `v` (`v < 256`). -/
def aset (arr i v : Nat) : Nat := arr - ((aget arr i) <<< (8 * i)) + (v <<< (8 * i))

/-- Pack a list of 8-bit values into one natural number, head in the low bits. -/
def pack (l : List Nat) : Nat := l.foldr (fun d acc => d + 256 * acc) 0

structure pstate where
  n : Nat
  s : Nat
  a : Nat
  i : Nat
  j : Nat
  k : Nat
  w : Nat
  z : Nat
deriving Repr, DecidableEq

/-- The packed image of a list-level state. -/
def packState (st : state) : pstate :=
  ⟨st.n, pack st.s, st.a, st.i, st.j, st.k, st.w, st.z⟩

@[simp] theorem pack_nil : pack [] = 0 := rfl

@[simp] theorem pack_cons (d : Nat) (tl : List Nat) : pack (d :: tl) = d + 256 * pack tl := rfl

theorem aget_zero (arr : Nat) : aget arr 0 = arr % 256 := by
  simp [aget]

theorem aget_succ (d P : Nat) (hd : d < 256) (i : Nat) :
    aget (d + 256 * P) (i + 1) = aget P i := by
  unfold aget
  rw [Nat.shiftRight_eq_div_pow, Nat.shiftRight_eq_div_pow]
  have h8 : 8 * (i + 1) = 8 + 8 * i := by ring
  rw [h8, pow_add, ← Nat.div_div_eq_div_mul]
  have hdiv : (d + 256 * P) / 2 ^ 8 = P := by
    norm_num
    omega
  rw [hdiv]

theorem aget_pack : ∀ (l : List Nat), (∀ x ∈ l, x < 256) → ∀ i, i < l.length →
    aget (pack l) i = l.getD i 0
  | [], _, i, h => absurd h (by simp)
  | d :: tl, hb, 0, _ => by
    show aget (d + 256 * pack tl) 0 = d
    rw [aget_zero, Nat.add_mul_mod_self_left]
    exact Nat.mod_eq_of_lt (hb d (List.mem_cons_self d tl))
  | d :: tl, hb, i + 1, h => by
    show aget (d + 256 * pack tl) (i + 1) = tl.getD i 0
    rw [aget_succ d (pack tl) (hb d (List.mem_cons_self d tl)) i]
    exact aget_pack tl (fun x hx => hb x (List.mem_cons_of_mem d hx)) i
      (Nat.lt_of_succ_lt_succ h)

theorem aget_mul_pow_le (P i : Nat) : (aget P i) * 2 ^ (8 * i) ≤ P := by
  unfold aget
  rw [Nat.shiftRight_eq_div_pow]
  calc P / 2 ^ (8 * i) % 256 * 2 ^ (8 * i)
      ≤ P / 2 ^ (8 * i) * 2 ^ (8 * i) :=
        Nat.mul_le_mul_right _ (Nat.mod_le _ _)
    _ ≤ P := Nat.div_mul_le_self P _

theorem aset_pack : ∀ (l : List Nat) (i v : Nat), (∀ x ∈ l, x < 256) → i < l.length →
    pack (l.set i v) = aset (pack l) i v
  | d :: tl, 0, v, hb, _ => by
    show pack (v :: tl) = aset (d + 256 * pack tl) 0 v
    have hmod : (d + 256 * pack tl) % 256 = d := by
      rw [Nat.add_mul_mod_self_left]
      exact Nat.mod_eq_of_lt (hb d (List.mem_cons_self d tl))
    unfold aset
    rw [aget_zero, hmod]
    show v + 256 * pack tl = d + 256 * pack tl - d <<< (8 * 0) + v <<< (8 * 0)
    have h0 : 8 * 0 = 0 := by norm_num
    rw [h0, Nat.shiftLeft_zero, Nat.shiftLeft_zero]
    omega
  | d :: tl, i + 1, v, hb, h => by
    have hd : d < 256 := hb d (List.mem_cons_self d tl)
    show d + 256 * pack (tl.set i v) = aset (d + 256 * pack tl) (i + 1) v
    rw [aset_pack tl i v (fun x hx => hb x (List.mem_cons_of_mem d hx))
      (Nat.lt_of_succ_lt_succ h)]
    unfold aset
    rw [aget_succ d (pack tl) hd i]
    simp only [Nat.shiftLeft_eq]
    have hle : aget (pack tl) i * 2 ^ (8 * i) ≤ pack tl := aget_mul_pow_le (pack tl) i
    have hpow : (2:Nat) ^ (8 * (i + 1)) = 2 ^ (8 * i) * 256 := by
      have h8 : 8 * (i + 1) = 8 * i + 8 := by ring
      rw [h8, pow_add]; norm_num
    rw [hpow]
    have hA : aget (pack tl) i * (2 ^ (8 * i) * 256) =
        aget (pack tl) i * 2 ^ (8 * i) * 256 := by ring
    have hB : v * (2 ^ (8 * i) * 256) = v * 2 ^ (8 * i) * 256 := by ring
    rw [hA, hB]
    generalize aget (pack tl) i * 2 ^ (8 * i) = A at hle ⊢
    generalize v * 2 ^ (8 * i) = B
    generalize pack tl = P at hle ⊢
    omega

/-! ### Packed versions of the primitives -/

def pstate.pupdate (st : pstate) : pstate :=
  let i := (st.i + st.w) % st.n
  let y := (st.j + aget st.s i) % st.n
  let j := (st.k + aget st.s y) % st.n
  let k := (i + st.k + aget st.s j) % st.n
  let t := aget st.s i
  { st with i := i, j := j, k := k, s := aset (aset st.s i (aget st.s j)) j t }

def pstate.poutput (st : pstate) : pstate :=
  let y1 := (st.z + st.k) % st.n
  let x1 := (st.i + aget st.s y1) % st.n
  let y2 := (st.j + aget st.s x1) % st.n
  { st with z := aget st.s y2 }

def pcrushStep (acc : pstate) (idx : Nat) : pstate :=
  let y := acc.n - 1 - idx
  let x1 := aget acc.s idx
  let x2 := aget acc.s y
  if x1 > x2 then { acc with s := aset (aset acc.s idx x2) y x1 }
  else { acc with s := aset (aset acc.s idx x1) y x2 }

def pstate.pcrush (st : pstate) : pstate :=
  (List.range (st.n / 2)).foldl pcrushStep st

def iterP : Nat → pstate → pstate
  | 0, st => st
  | m + 1, st => iterP m st.pupdate

def pstate.pwhip (st : pstate) : pstate :=
  let st' := iterP (st.n * 2) st
  { st' with w := (st'.w + 2) % st'.n }

def pstate.pshuffle (st : pstate) : pstate :=
  { st.pwhip.pcrush.pwhip.pcrush.pwhip with a := 0 }

def pstate.pabsorbStop (st : pstate) : pstate :=
  let st' := if st.a = st.n / 2 then st.pshuffle else st
  { st' with a := (st'.a + 1) % st'.n }

def pstate.pabsorbNibble (st : pstate) (x : Nat) : pstate :=
  let st' := if st.a = st.n / 2 then st.pshuffle else st
  let y := (st'.n / 2 + x) % st'.n
  let t := aget st'.s st'.a
  { st' with s := aset (aset st'.s st'.a (aget st'.s y)) y t,
             a := (st'.a + 1) % st'.n }

def pstate.pabsorbValue (st : pstate) (b : Nat) : pstate :=
  let d := st.n / 16
  (st.pabsorbNibble (b % d)).pabsorbNibble (b / d)

def pstate.pabsorb (st : pstate) (msg : List Nat) : pstate :=
  msg.foldl pstate.pabsorbValue st

def pstate.pdrip (st : pstate) : Nat × pstate :=
  let st' := if st.a > 0 then st.pshuffle else st
  let st'' := st'.pupdate.poutput
  (st''.z, st'')

def pdripN : Nat → pstate → List Nat × pstate
  | 0, st => ([], st)
  | m + 1, st =>
    let p := st.pdrip
    let q := pdripN m p.2
    (p.1 :: q.1, q.2)

def pstate.psqueeze (st : pstate) (count : Nat) : List Nat × pstate :=
  pdripN count (if st.a > 0 then st.pshuffle else st)

theorem iterP_add (a b : Nat) (st : pstate) : iterP (a + b) st = iterP b (iterP a st) := by
  induction a generalizing st with
  | zero => simp [iterP]
  | succ m ih =>
    have h : m + 1 + b = (m + b) + 1 := by omega
    rw [h]
    show iterP (m + b) st.pupdate = iterP b (iterP m st.pupdate)
    exact ih st.pupdate

/-! ### The simulation relation -/

/-- A reachable state: size 256 and the permutation invariant.  Every state
produced by the public API satisfies this. -/
def Good (st : state) : Prop := st.n = 256 ∧ SInv st

theorem Good.hlen {st : state} (h : Good st) : st.s.length = 256 := by
  rw [h.2.len, h.1]

theorem Good.hb {st : state} (h : Good st) : ∀ x ∈ st.s, x < 256 := by
  intro x hx
  have hmem : x ∈ List.range st.n := h.2.2.2.mem_iff.1 hx
  have hn := h.1
  have := List.mem_range.1 hmem
  omega

theorem Good.getD_lt {st : state} (h : Good st) (idx : Nat) (hidx : idx < st.s.length) :
    st.s.getD idx 0 < 256 := by
  rw [List.getD_eq_getElem _ _ hidx]
  exact h.hb _ (List.getElem_mem hidx)

theorem entries_set {l : List Nat} {v : Nat} (hb : ∀ x ∈ l, x < 256) (hv : v < 256) (i : Nat) :
    ∀ x ∈ l.set i v, x < 256 := fun x hx =>
  (List.mem_or_eq_of_mem_set hx).elim (hb x) (fun e => e ▸ hv)

/-- A swap of two in-bounds entries commutes with packing. -/
theorem pack_swap (l : List Nat) (hb : ∀ x ∈ l, x < 256) (p q : Nat)
    (hp : p < l.length) (hq : q < l.length) :
    pack ((l.set p (l.getD q 0)).set q (l.getD p 0)) =
      aset (aset (pack l) p (aget (pack l) q)) q (aget (pack l) p) := by
  have hvq : l.getD q 0 < 256 := by
    rw [List.getD_eq_getElem _ _ hq]; exact hb _ (List.getElem_mem hq)
  have hvp : l.getD p 0 < 256 := by
    rw [List.getD_eq_getElem _ _ hp]; exact hb _ (List.getElem_mem hp)
  rw [aget_pack l hb q hq, aget_pack l hb p hp,
    aset_pack (l.set p (l.getD q 0)) q (l.getD p 0) (entries_set hb hvq p)
      (by rw [List.length_set]; exact hq),
    aset_pack l p (l.getD q 0) hb hp]

/-! ### `Good` is preserved by every primitive -/

theorem Good_update {st : state} (h : Good st) : Good st.update :=
  ⟨(n_update st).trans h.1, SInv_update h.2⟩

theorem Good_output {st : state} (h : Good st) : Good st.output :=
  ⟨(n_output st).trans h.1, SInv_output h.2⟩

theorem Good_crush {st : state} (h : Good st) : Good st.crush :=
  ⟨(n_crush st).trans h.1, SInv_crush h.2⟩

theorem Good_iterUpdate (m : Nat) {st : state} (h : Good st) : Good (iterUpdate m st) :=
  ⟨(n_iterUpdate m st).trans h.1, SInv_iterUpdate m h.2⟩

theorem Good_whip {st : state} (h : Good st) : Good st.whip :=
  ⟨(n_whip st).trans h.1, SInv_whip h.2⟩

theorem Good_shuffle {st : state} (h : Good st) : Good st.shuffle :=
  ⟨(n_shuffle st).trans h.1, SInv_shuffle h.2⟩

theorem Good_absorbStop {st : state} (h : Good st) : Good st.absorbStop :=
  ⟨(n_absorbStop st).trans h.1, SInv_absorbStop h.2⟩

theorem Good_absorbNibble {st : state} (x : Nat) (h : Good st) : Good (st.absorbNibble x) :=
  ⟨(n_absorbNibble st x).trans h.1, SInv_absorbNibble x h.2⟩

theorem Good_absorbValue {st : state} (b : Nat) (h : Good st) : Good (st.absorbValue b) :=
  ⟨(n_absorbValue st b).trans h.1, SInv_absorbValue b h.2⟩

theorem Good_absorb {st : state} (msg : List Nat) (h : Good st) : Good (st.absorb msg) :=
  ⟨(n_absorb st msg).trans h.1, SInv_absorb msg h.2⟩

theorem Good_drip {st : state} (h : Good st) : Good st.drip.2 :=
  ⟨(n_drip st).trans h.1, SInv_drip h.2⟩

theorem Good_dripN (m : Nat) {st : state} (h : Good st) : Good (dripN m st).2 :=
  ⟨(n_dripN m st).trans h.1, SInv_dripN m h.2⟩

theorem Good_squeeze (c : Nat) {st : state} (h : Good st) : Good (st.squeeze c).2 :=
  ⟨(n_squeeze st c).trans h.1, SInv_squeeze c h.2⟩

theorem Good_initSt (m : Int) : Good (state.initSt m) :=
  ⟨rfl, SInv_initSt m⟩

/-! ### Simulation lemmas: the packed model mirrors the list model -/

theorem foldl_sim {α β γ : Type} (R : α → γ → Prop) (f : α → β → α) (g : γ → β → γ) :
    ∀ (l : List β) (a : α) (c : γ), R a c →
      (∀ a c x, x ∈ l → R a c → R (f a x) (g c x)) → R (l.foldl f a) (l.foldl g c)
  | [], _, _, h, _ => h
  | x :: xs, a, c, h, hf =>
    foldl_sim R f g xs (f a x) (g c x) (hf a c x (List.mem_cons_self x xs) h)
      (fun a' c' y hy hr => hf a' c' y (List.mem_cons_of_mem x hy) hr)

theorem sim_update {st : state} (h : Good st) :
    packState st.update = (packState st).pupdate := by
  have hn : st.n = 256 := h.1
  have hlen : st.s.length = 256 := h.hlen
  have hpos : 0 < st.n := by omega
  have h1 : (st.i + st.w) % st.n < st.s.length := by rw [hlen, ← hn]; exact Nat.mod_lt _ hpos
  simp only [state.update, pstate.pupdate, packState]
  rw [aget_pack st.s h.hb ((st.i + st.w) % st.n) h1]
  have h2 : (st.j + st.s.getD ((st.i + st.w) % st.n) 0) % st.n < st.s.length := by
    rw [hlen, ← hn]; exact Nat.mod_lt _ hpos
  rw [aget_pack st.s h.hb _ h2]
  have h3 : (st.k + st.s.getD ((st.j + st.s.getD ((st.i + st.w) % st.n) 0) % st.n) 0) % st.n
      < st.s.length := by rw [hlen, ← hn]; exact Nat.mod_lt _ hpos
  rw [aget_pack st.s h.hb _ h3]
  rw [pack_swap st.s h.hb _ _ h1 h3]
  rw [aget_pack st.s h.hb _ h3, aget_pack st.s h.hb _ h1]

theorem sim_output {st : state} (h : Good st) :
    packState st.output = (packState st).poutput := by
  have hn : st.n = 256 := h.1
  have hlen : st.s.length = 256 := h.hlen
  have hpos : 0 < st.n := by omega
  simp only [state.output, pstate.poutput, packState]
  have h1 : (st.z + st.k) % st.n < st.s.length := by rw [hlen, ← hn]; exact Nat.mod_lt _ hpos
  rw [aget_pack st.s h.hb _ h1]
  have h2 : (st.i + st.s.getD ((st.z + st.k) % st.n) 0) % st.n < st.s.length := by
    rw [hlen, ← hn]; exact Nat.mod_lt _ hpos
  rw [aget_pack st.s h.hb _ h2]
  have h3 : (st.j + st.s.getD ((st.i + st.s.getD ((st.z + st.k) % st.n) 0) % st.n) 0) % st.n
      < st.s.length := by rw [hlen, ← hn]; exact Nat.mod_lt _ hpos
  rw [aget_pack st.s h.hb _ h3]

theorem Good_crushStep {acc : state} (idx : Nat) (h : Good acc) (hidx : idx < 128) :
    Good (crushStep acc idx) := by
  have hlen : acc.s.length = acc.n := by rw [h.hlen, h.1]
  have hperm := crushStep_perm acc idx hlen (by rw [h.1]; omega)
  have ha : (crushStep acc idx).a = acc.a := by unfold crushStep; dsimp only; split <;> rfl
  refine ⟨(n_crushStep acc idx).trans h.1, ⟨?_, ?_, ?_⟩⟩
  · rw [n_crushStep]; exact h.2.1
  · rw [n_crushStep, ha]; exact h.2.2.1
  · rw [n_crushStep]; exact hperm.trans h.2.2.2

theorem sim_crushStep {acc : state} (idx : Nat) (h : Good acc) (hidx : idx < 128) :
    packState (crushStep acc idx) = pcrushStep (packState acc) idx := by
  have hn : acc.n = 256 := h.1
  have hlen : acc.s.length = 256 := h.hlen
  have hi : idx < acc.s.length := by omega
  have hy : acc.n - 1 - idx < acc.s.length := by omega
  simp only [crushStep, pcrushStep, packState]
  rw [aget_pack acc.s h.hb idx hi, aget_pack acc.s h.hb (acc.n - 1 - idx) hy]
  split
  · rw [pack_swap acc.s h.hb idx (acc.n - 1 - idx) hi hy,
      aget_pack acc.s h.hb _ hy, aget_pack acc.s h.hb _ hi]
  · have hvi : acc.s.getD idx 0 < 256 := h.getD_lt idx hi
    have hvy : acc.s.getD (acc.n - 1 - idx) 0 < 256 := h.getD_lt _ hy
    rw [aset_pack (acc.s.set idx (acc.s.getD idx 0)) (acc.n - 1 - idx)
        (acc.s.getD (acc.n - 1 - idx) 0) (entries_set h.hb hvi idx)
        (by rw [List.length_set]; exact hy),
      aset_pack acc.s idx (acc.s.getD idx 0) h.hb hi]

theorem sim_crush {st : state} (h : Good st) :
    packState st.crush = (packState st).pcrush := by
  have hn : st.n = 256 := h.1
  show packState ((List.range (st.n / 2)).foldl crushStep st) =
    (List.range ((packState st).n / 2)).foldl pcrushStep (packState st)
  have hsame : (packState st).n = st.n := rfl
  rw [hsame]
  have := foldl_sim (R := fun (a : state) (c : pstate) => Good a ∧ c = packState a)
    crushStep pcrushStep (List.range (st.n / 2)) st (packState st) ⟨h, rfl⟩ ?_
  · exact this.2.symm
  · intro a c x hx ⟨hg, hc⟩
    have hx' : x < 128 := by
      have := List.mem_range.1 hx
      omega
    exact ⟨Good_crushStep x hg hx', by rw [hc, sim_crushStep x hg hx']⟩

theorem sim_iterUpdate : ∀ (m : Nat) {st : state}, Good st →
    packState (iterUpdate m st) = iterP m (packState st)
  | 0, _, _ => rfl
  | m + 1, st, h => by
    show packState (iterUpdate m st.update) = iterP m (packState st).pupdate
    rw [sim_iterUpdate m (Good_update h), sim_update h]

theorem sim_whip {st : state} (h : Good st) : packState st.whip = (packState st).pwhip := by
  have hiter := sim_iterUpdate (st.n * 2) h
  unfold state.whip pstate.pwhip
  dsimp only
  have hn : (packState st).n = st.n := rfl
  rw [hn, ← hiter]
  rfl

theorem sim_shuffle {st : state} (h : Good st) :
    packState st.shuffle = (packState st).pshuffle := by
  unfold state.shuffle pstate.pshuffle
  have hstep : packState { st.whip.crush.whip.crush.whip with a := 0 } =
      { packState st.whip.crush.whip.crush.whip with a := 0 } := rfl
  rw [hstep, sim_whip (Good_crush (Good_whip (Good_crush (Good_whip h)))),
    sim_crush (Good_whip (Good_crush (Good_whip h))), sim_whip (Good_crush (Good_whip h)),
    sim_crush (Good_whip h), sim_whip h]

theorem sim_absorbStop {st : state} (h : Good st) :
    packState st.absorbStop = (packState st).pabsorbStop := by
  unfold state.absorbStop pstate.pabsorbStop
  dsimp only
  by_cases hc : st.a = st.n / 2
  · rw [if_pos hc, if_pos (show (packState st).a = (packState st).n / 2 from hc),
      ← sim_shuffle h]
    rfl
  · rw [if_neg hc, if_neg (show ¬((packState st).a = (packState st).n / 2) from hc)]
    rfl

theorem packState_swap_a (st : state) (h : Good st) (p q v : Nat)
    (hp : p < 256) (hq : q < 256) :
    packState { st with s := (st.s.set p (st.s.getD q 0)).set q (st.s.getD p 0), a := v } =
      { packState st with
        s := aset (aset (pack st.s) p (aget (pack st.s) q)) q (aget (pack st.s) p),
        a := v } := by
  have hps := pack_swap st.s h.hb p q (by rw [h.hlen]; exact hp) (by rw [h.hlen]; exact hq)
  show pstate.mk st.n (pack ((st.s.set p (st.s.getD q 0)).set q (st.s.getD p 0)))
      v st.i st.j st.k st.w st.z = _
  rw [hps]
  rfl

theorem sim_absorbNibble {st : state} (x : Nat) (h : Good st) :
    packState (st.absorbNibble x) = (packState st).pabsorbNibble x := by
  unfold state.absorbNibble pstate.pabsorbNibble
  dsimp only
  by_cases hc : st.a = st.n / 2
  · rw [if_pos hc, if_pos (show (packState st).a = (packState st).n / 2 from hc),
      ← sim_shuffle h]
    have hg := Good_shuffle h
    exact packState_swap_a st.shuffle hg _ _ _
      (by have := hg.2.2.1; rw [hg.1] at this; exact this)
      (by rw [show st.shuffle.n = 256 from hg.1]; exact Nat.mod_lt _ (by omega))
  · rw [if_neg hc, if_neg (show ¬((packState st).a = (packState st).n / 2) from hc)]
    exact packState_swap_a st h _ _ _
      (by have := h.2.2.1; rw [h.1] at this; exact this)
      (by rw [show st.n = 256 from h.1]; exact Nat.mod_lt _ (by omega))

theorem sim_absorbValue {st : state} (b : Nat) (h : Good st) :
    packState (st.absorbValue b) = (packState st).pabsorbValue b := by
  unfold state.absorbValue pstate.pabsorbValue
  dsimp only
  show packState ((st.absorbNibble (b % (st.n / 16))).absorbNibble (b / (st.n / 16))) = _
  rw [sim_absorbNibble _ (Good_absorbNibble _ h), sim_absorbNibble _ h]
  rfl

theorem sim_absorb {st : state} (msg : List Nat) (h : Good st) :
    packState (st.absorb msg) = (packState st).pabsorb msg := by
  have := foldl_sim (R := fun (a : state) (c : pstate) => Good a ∧ c = packState a)
    state.absorbValue pstate.pabsorbValue msg st (packState st) ⟨h, rfl⟩
    (fun a c x _ hr => ⟨Good_absorbValue x hr.1, by rw [hr.2, sim_absorbValue x hr.1]⟩)
  exact this.2.symm

theorem sim_drip {st : state} (h : Good st) :
    st.drip.1 = ((packState st).pdrip).1 ∧ packState st.drip.2 = ((packState st).pdrip).2 := by
  unfold state.drip pstate.pdrip
  dsimp only
  by_cases hc : st.a > 0
  · rw [if_pos hc, if_pos (show (packState st).a > 0 from hc), ← sim_shuffle h]
    have h2 : packState st.shuffle.update.output = (packState st.shuffle).pupdate.poutput := by
      rw [sim_output (Good_update (Good_shuffle h)), sim_update (Good_shuffle h)]
    exact ⟨by rw [← h2]; rfl, h2⟩
  · rw [if_neg hc, if_neg (show ¬((packState st).a > 0) from hc)]
    have h2 : packState st.update.output = (packState st).pupdate.poutput := by
      rw [sim_output (Good_update h), sim_update h]
    exact ⟨by rw [← h2]; rfl, h2⟩

theorem sim_dripN : ∀ (m : Nat) {st : state}, Good st →
    (dripN m st).1 = (pdripN m (packState st)).1 ∧
    packState (dripN m st).2 = (pdripN m (packState st)).2
  | 0, _, _ => ⟨rfl, rfl⟩
  | m + 1, st, h => by
    obtain ⟨hv, hs⟩ := sim_drip h
    have ih := sim_dripN m (Good_drip h)
    constructor
    · show st.drip.1 :: (dripN m st.drip.2).1 =
        ((packState st).pdrip).1 :: (pdripN m ((packState st).pdrip).2).1
      rw [← hs, ← ih.1, ← hv]
    · show packState (dripN m st.drip.2).2 = (pdripN m ((packState st).pdrip).2).2
      rw [← hs, ← ih.2]

theorem sim_squeeze (c : Nat) {st : state} (h : Good st) :
    (st.squeeze c).1 = ((packState st).psqueeze c).1 ∧
    packState (st.squeeze c).2 = ((packState st).psqueeze c).2 := by
  unfold state.squeeze pstate.psqueeze
  by_cases hc : st.a > 0
  · rw [if_pos hc, if_pos (show (packState st).a > 0 from hc), ← sim_shuffle h]
    exact sim_dripN c (Good_shuffle h)
  · rw [if_neg hc, if_neg (show ¬((packState st).a > 0) from hc)]
    exact sim_dripN c h

/-- Componentwise description of `packState`. -/
theorem packState_ext (X : state) (nn sP aa ii jj kk ww zz : Nat)
    (h1 : X.n = nn) (h2 : pack X.s = sP) (h3 : X.a = aa) (h4 : X.i = ii) (h5 : X.j = jj)
    (h6 : X.k = kk) (h7 : X.w = ww) (h8 : X.z = zz) :
    packState X = pstate.mk nn sP aa ii jj kk ww zz := by
  unfold packState
  rw [h1, h2, h3, h4, h5, h6, h7, h8]

/-- Digest-level simulation of one `Sum nil` call with a non-negative size:
the returned bytes equal the packed pipeline's bytes (reduced mod 256), the
live accumulator's array is the packed pipeline's final array, and the live
registers (and the stored size) are exactly the ones from before the call —
the register copies shield them while the shared backing array does not. -/
theorem sum_sim {d : digest} (sz : Nat) (hsz : d.size = (sz : Int)) (h : Good d.s) :
    (((d.Sum []).map Prod.fst).getD []) =
      ((((packState d.s).pabsorbStop.pabsorbValue sz).psqueeze sz).1).map (fun v => v % 256) ∧
    pack ((((d.Sum []).map Prod.snd).getD d).s.s) =
      ((((packState d.s).pabsorbStop.pabsorbValue sz).psqueeze sz).2).s ∧
    (((d.Sum []).map Prod.snd).getD d).s.n = d.s.n ∧
    (((d.Sum []).map Prod.snd).getD d).s.a = d.s.a ∧
    (((d.Sum []).map Prod.snd).getD d).s.i = d.s.i ∧
    (((d.Sum []).map Prod.snd).getD d).s.j = d.s.j ∧
    (((d.Sum []).map Prod.snd).getD d).s.k = d.s.k ∧
    (((d.Sum []).map Prod.snd).getD d).s.w = d.s.w ∧
    (((d.Sum []).map Prod.snd).getD d).s.z = d.s.z ∧
    (((d.Sum []).map Prod.snd).getD d).size = d.size := by
  have hnot : ¬ d.size < 0 := by rw [hsz]; simp
  unfold digest.Sum
  rw [if_neg hnot, hsz]
  dsimp only
  rw [Int.toNat_natCast]
  have habs : d.s.absorbStop.absorb [sz] = d.s.absorbStop.absorbValue sz := rfl
  rw [habs]
  have hg1 : Good d.s.absorbStop := Good_absorbStop h
  have hg2 : Good (d.s.absorbStop.absorbValue sz) := Good_absorbValue sz hg1
  have hchain : packState (d.s.absorbStop.absorbValue sz) =
      (packState d.s).pabsorbStop.pabsorbValue sz := by
    rw [sim_absorbValue sz hg1, sim_absorbStop h]
  have hsq := sim_squeeze sz hg2
  rw [hchain] at hsq
  refine ⟨?_, ?_, rfl, rfl, rfl, rfl, rfl, rfl, rfl, rfl⟩
  · show ((d.s.absorbStop.absorbValue sz).squeeze sz).1.map (fun v => v % 256) = _
    rw [hsq.1]
  · show pack ((d.s.absorbStop.absorbValue sz).squeeze sz).2.s = _
    have := congrArg pstate.s hsq.2
    exact this

/-! ### Evaluation helpers: splitting a packed whip / shuffle into
kernel-sized chunks of 256 update rounds -/

theorem pwhip_literal (L M1 M2 : pstate) (hn : L.n = 256)
    (h1 : iterP 256 L = M1) (h2 : iterP 256 M1 = M2) :
    L.pwhip = { M2 with w := (M2.w + 2) % M2.n } := by
  unfold pstate.pwhip
  dsimp only
  rw [hn]
  rw [show (256 * 2 : Nat) = 256 + 256 from rfl, iterP_add, h1, h2]

theorem pshuffle_lit (L W1 C1 W2 C2 W3 : pstate)
    (h1 : L.pwhip = W1) (h2 : W1.pcrush = C1) (h3 : C1.pwhip = W2)
    (h4 : W2.pcrush = C2) (h5 : C2.pwhip = W3) :
    L.pshuffle = { W3 with a := 0 } := by
  unfold pstate.pshuffle
  rw [h1, h2, h3, h4, h5]

/-! ### Generated packed-evaluation lemmas (literal states; each `decide`
covers at most 256 update rounds) -/

theorem scAs_i1 : iterP 256 (pstate.mk 256 32316509077753586139510713445660514514047171580093496865901477602143224540557412340472969236184020377745408638077439397456141948699754273791418869985027499602243785773646750786158629119897527698459159582903277348091197804306308450975276589715725867107713970624879795449576651053772645338545136289129326397595733294292007154192695551562704679711975052810830104753587930546596966008556046486117664753610789288333609281772428628086347971074977347106481092263752243743051819803545644250452329618966873650662498179233307685074756205913260277196199816739991287097174094470928575926816309996654108192992429044439664574890240 3 0 0 0 1 0) = (pstate.mk 256 29464574607559299499184237760862800870110966986637871706612765400834530394131408660123162814507480306630526080581490431212195135052834168818613269894985741584235172575787325654986498849404407377842822094081187188096264566637519106230223053111455551643880310297752896067619568740129146298154161253690434588938978580708835846647713048714801156571078987249810421557836764615015541471901327859920522460110953071567690370264832397360094672445540864072378318811230024687469057731187287957788131948766225353838112142525054248128616612905695196307090229882538964481315873029931750712798438325321008009722543759855127314776585 3 0 190 163 1 0) := by decide

theorem scAs_i2 : iterP 256 (pstate.mk 256 29464574607559299499184237760862800870110966986637871706612765400834530394131408660123162814507480306630526080581490431212195135052834168818613269894985741584235172575787325654986498849404407377842822094081187188096264566637519106230223053111455551643880310297752896067619568740129146298154161253690434588938978580708835846647713048714801156571078987249810421557836764615015541471901327859920522460110953071567690370264832397360094672445540864072378318811230024687469057731187287957788131948766225353838112142525054248128616612905695196307090229882538964481315873029931750712798438325321008009722543759855127314776585 3 0 190 163 1 0) = (pstate.mk 256 9143497015095988646576453588571112010321130410446801881184863147099580261911433804719065760328385295371084935545114526425134039027521541471939974777993722499225947652085790254331434300003129862465387150135090686213929554726835365102867024898717488732213338410007868705556936982138182529614014948756351833532590728454190766795341360633449806450155504044530329861695090898706563717535826220092542452566334878703548176054222930450958853554595646177583013550881562541422077642357502987465334962469710591216311991199486639057977297748991889215068762834470430478321759345270187339432276717968567830767432648075655784496500 3 0 253 118 1 0) := by decide

theorem scAs_w1 : pstate.pwhip (pstate.mk 256 32316509077753586139510713445660514514047171580093496865901477602143224540557412340472969236184020377745408638077439397456141948699754273791418869985027499602243785773646750786158629119897527698459159582903277348091197804306308450975276589715725867107713970624879795449576651053772645338545136289129326397595733294292007154192695551562704679711975052810830104753587930546596966008556046486117664753610789288333609281772428628086347971074977347106481092263752243743051819803545644250452329618966873650662498179233307685074756205913260277196199816739991287097174094470928575926816309996654108192992429044439664574890240 3 0 0 0 1 0) = (pstate.mk 256 9143497015095988646576453588571112010321130410446801881184863147099580261911433804719065760328385295371084935545114526425134039027521541471939974777993722499225947652085790254331434300003129862465387150135090686213929554726835365102867024898717488732213338410007868705556936982138182529614014948756351833532590728454190766795341360633449806450155504044530329861695090898706563717535826220092542452566334878703548176054222930450958853554595646177583013550881562541422077642357502987465334962469710591216311991199486639057977297748991889215068762834470430478321759345270187339432276717968567830767432648075655784496500 3 0 253 118 3 0) :=
  (pwhip_literal _ _ _ rfl scAs_i1 scAs_i2).trans (by decide)

theorem scAs_c1 : pstate.pcrush (pstate.mk 256 9143497015095988646576453588571112010321130410446801881184863147099580261911433804719065760328385295371084935545114526425134039027521541471939974777993722499225947652085790254331434300003129862465387150135090686213929554726835365102867024898717488732213338410007868705556936982138182529614014948756351833532590728454190766795341360633449806450155504044530329861695090898706563717535826220092542452566334878703548176054222930450958853554595646177583013550881562541422077642357502987465334962469710591216311991199486639057977297748991889215068762834470430478321759345270187339432276717968567830767432648075655784496500 3 0 253 118 3 0) = (pstate.mk 256 14768766113029882929822804144705690062560900788806346789697449394437375694229157157125695747019528179570462503581608486956888325487393563274618678905605769236352231377090908522571369008798248782324202241964162241917164344672278265354780390069026344099931681347374386825105332117082393150723484503233822346818959222737466515002751628545843892429242666113310854557427514051115632640972050702841349878180106716248369083562351404179638172829144576228550131673068240905489382060703862182015525516824147773994789657921164718998922062410170600858076135277768053086848919163114362089543269565412427528692377280330127666933320 3 0 253 118 3 0) := by decide

theorem scAs_i3 : iterP 256 (pstate.mk 256 14768766113029882929822804144705690062560900788806346789697449394437375694229157157125695747019528179570462503581608486956888325487393563274618678905605769236352231377090908522571369008798248782324202241964162241917164344672278265354780390069026344099931681347374386825105332117082393150723484503233822346818959222737466515002751628545843892429242666113310854557427514051115632640972050702841349878180106716248369083562351404179638172829144576228550131673068240905489382060703862182015525516824147773994789657921164718998922062410170600858076135277768053086848919163114362089543269565412427528692377280330127666933320 3 0 253 118 3 0) = (pstate.mk 256 10016983509187015244845344110103435875281166502340576434481338226675013844043045340748837403227812051695801415720988225851999637495418252376914372864505889200359582175145125372119404232749276056798757053283181124802490801815621955499885029719566044651340076159895040070815347731488439710550183415542643178042828476742660719904237521061878545538219454783586081829541063762852030005944219384510182977565878931440741186349544621908686854900516588056104047187538615650744478101058365629033598468350040885981704538607068841697767706535227372505685998457937912226027096320102201649039717811774084829388940247048056538580785 3 0 164 176 3 0) := by decide

theorem scAs_i4 : iterP 256 (pstate.mk 256 10016983509187015244845344110103435875281166502340576434481338226675013844043045340748837403227812051695801415720988225851999637495418252376914372864505889200359582175145125372119404232749276056798757053283181124802490801815621955499885029719566044651340076159895040070815347731488439710550183415542643178042828476742660719904237521061878545538219454783586081829541063762852030005944219384510182977565878931440741186349544621908686854900516588056104047187538615650744478101058365629033598468350040885981704538607068841697767706535227372505685998457937912226027096320102201649039717811774084829388940247048056538580785 3 0 164 176 3 0) = (pstate.mk 256 12723738190318047145424055940582562926954836895633426755242804415889166116003961861297392117668266224628260808216197061524910112496276956243600943438205672198901800816410206671142447248648560883943176688937158547743626425115451268454926305744447456640600886747453161639397697992923835949397468374100169359504319586696074420376165277414221573514323727459866289665638930536854240991954745372283609708066138930180570792252314643645782147790541097356019804734308647832148506104286167862324628256009233692295031952477431563808512540300341564737714976139478093697804140355429635613334782008195483498641696511987766620811630 3 0 79 231 3 0) := by decide

theorem scAs_w2 : pstate.pwhip (pstate.mk 256 14768766113029882929822804144705690062560900788806346789697449394437375694229157157125695747019528179570462503581608486956888325487393563274618678905605769236352231377090908522571369008798248782324202241964162241917164344672278265354780390069026344099931681347374386825105332117082393150723484503233822346818959222737466515002751628545843892429242666113310854557427514051115632640972050702841349878180106716248369083562351404179638172829144576228550131673068240905489382060703862182015525516824147773994789657921164718998922062410170600858076135277768053086848919163114362089543269565412427528692377280330127666933320 3 0 253 118 3 0) = (pstate.mk 256 12723738190318047145424055940582562926954836895633426755242804415889166116003961861297392117668266224628260808216197061524910112496276956243600943438205672198901800816410206671142447248648560883943176688937158547743626425115451268454926305744447456640600886747453161639397697992923835949397468374100169359504319586696074420376165277414221573514323727459866289665638930536854240991954745372283609708066138930180570792252314643645782147790541097356019804734308647832148506104286167862324628256009233692295031952477431563808512540300341564737714976139478093697804140355429635613334782008195483498641696511987766620811630 3 0 79 231 5 0) :=
  (pwhip_literal _ _ _ rfl scAs_i3 scAs_i4).trans (by decide)

theorem scAs_c2 : pstate.pcrush (pstate.mk 256 12723738190318047145424055940582562926954836895633426755242804415889166116003961861297392117668266224628260808216197061524910112496276956243600943438205672198901800816410206671142447248648560883943176688937158547743626425115451268454926305744447456640600886747453161639397697992923835949397468374100169359504319586696074420376165277414221573514323727459866289665638930536854240991954745372283609708066138930180570792252314643645782147790541097356019804734308647832148506104286167862324628256009233692295031952477431563808512540300341564737714976139478093697804140355429635613334782008195483498641696511987766620811630 3 0 79 231 5 0) = (pstate.mk 256 13986121242800313449944254684575681301245482661920763374522308642677229688125676301054989741397202237077642573502677958473400856569766015402085330233389708455988778096920890082324764362169238130542630078403180136016720251271142540001039661317137746019649130349824764996176577539772589949042999412856230128686604917287290125598408434540601383932458086881527150631040065000269619130696301228988090175663503474499771313485618460363074457395908016963016012115364895333191426350895865152289730845511046352371943498362394980853582427055461362569955276906462324748236462412705197554810227591727583128889467814500155167043940 3 0 79 231 5 0) := by decide

theorem scAs_i5 : iterP 256 (pstate.mk 256 13986121242800313449944254684575681301245482661920763374522308642677229688125676301054989741397202237077642573502677958473400856569766015402085330233389708455988778096920890082324764362169238130542630078403180136016720251271142540001039661317137746019649130349824764996176577539772589949042999412856230128686604917287290125598408434540601383932458086881527150631040065000269619130696301228988090175663503474499771313485618460363074457395908016963016012115364895333191426350895865152289730845511046352371943498362394980853582427055461362569955276906462324748236462412705197554810227591727583128889467814500155167043940 3 0 79 231 5 0) = (pstate.mk 256 29973442161649285784996212153440444198248176739109471404490094472144884396102870647255340274368894753127309979834523278624429759303945960798924447674949026277933911908009395596878183164448575234316009583436554578909761346135954685014812446504051348682783380915173114682492537058824797343821608977578620246578891138423512930324613075530784450339059374495004667127365406325979292050668207446597089586060128374430045017036630959303997498352742901315236987896914019198603107810650672740735535706323199391515217879403303733834296519154155924065881777926516377730350599938742145483029266264261029284344016396866565805322435 3 0 54 80 5 0) := by decide

theorem scAs_i6 : iterP 256 (pstate.mk 256 29973442161649285784996212153440444198248176739109471404490094472144884396102870647255340274368894753127309979834523278624429759303945960798924447674949026277933911908009395596878183164448575234316009583436554578909761346135954685014812446504051348682783380915173114682492537058824797343821608977578620246578891138423512930324613075530784450339059374495004667127365406325979292050668207446597089586060128374430045017036630959303997498352742901315236987896914019198603107810650672740735535706323199391515217879403303733834296519154155924065881777926516377730350599938742145483029266264261029284344016396866565805322435 3 0 54 80 5 0) = (pstate.mk 256 22396214741844620593611418816225311056169764235187206444291723239455175282839406674791165778862096172130772554599479848654595252386748546403113158097231863711943352817029492137157947556039341709308603900368772089650264473150132022747624586841061133315935977119436215720669692617048536086461204896594615638377829111374470919448935343009404871733121948466648147073502145644513961621698174409638164797301418612277616072891517764330667658998275918792045387988705841644906941948562312934356669385744439990372986100071231454359240523551883482922399859208022150728244802745738161767884111491602957302859230291800656375627155 3 0 219 249 5 0) := by decide

theorem scAs_w3 : pstate.pwhip (pstate.mk 256 13986121242800313449944254684575681301245482661920763374522308642677229688125676301054989741397202237077642573502677958473400856569766015402085330233389708455988778096920890082324764362169238130542630078403180136016720251271142540001039661317137746019649130349824764996176577539772589949042999412856230128686604917287290125598408434540601383932458086881527150631040065000269619130696301228988090175663503474499771313485618460363074457395908016963016012115364895333191426350895865152289730845511046352371943498362394980853582427055461362569955276906462324748236462412705197554810227591727583128889467814500155167043940 3 0 79 231 5 0) = (pstate.mk 256 22396214741844620593611418816225311056169764235187206444291723239455175282839406674791165778862096172130772554599479848654595252386748546403113158097231863711943352817029492137157947556039341709308603900368772089650264473150132022747624586841061133315935977119436215720669692617048536086461204896594615638377829111374470919448935343009404871733121948466648147073502145644513961621698174409638164797301418612277616072891517764330667658998275918792045387988705841644906941948562312934356669385744439990372986100071231454359240523551883482922399859208022150728244802745738161767884111491602957302859230291800656375627155 3 0 219 249 7 0) :=
  (pwhip_literal _ _ _ rfl scAs_i5 scAs_i6).trans (by decide)

theorem scAs_sh : pstate.pshuffle (pstate.mk 256 32316509077753586139510713445660514514047171580093496865901477602143224540557412340472969236184020377745408638077439397456141948699754273791418869985027499602243785773646750786158629119897527698459159582903277348091197804306308450975276589715725867107713970624879795449576651053772645338545136289129326397595733294292007154192695551562704679711975052810830104753587930546596966008556046486117664753610789288333609281772428628086347971074977347106481092263752243743051819803545644250452329618966873650662498179233307685074756205913260277196199816739991287097174094470928575926816309996654108192992429044439664574890240 3 0 0 0 1 0) = (pstate.mk 256 22396214741844620593611418816225311056169764235187206444291723239455175282839406674791165778862096172130772554599479848654595252386748546403113158097231863711943352817029492137157947556039341709308603900368772089650264473150132022747624586841061133315935977119436215720669692617048536086461204896594615638377829111374470919448935343009404871733121948466648147073502145644513961621698174409638164797301418612277616072891517764330667658998275918792045387988705841644906941948562312934356669385744439990372986100071231454359240523551883482922399859208022150728244802745738161767884111491602957302859230291800656375627155 0 0 219 249 7 0) :=
  (pshuffle_lit _ _ _ _ _ _ scAs_w1 scAs_c1 scAs_w2 scAs_c2 scAs_w3).trans (by decide)

theorem scA_pipe : pstate.psqueeze (pstate.pabsorbValue (pstate.pabsorbStop (pstate.mk 256 32316509077753586139510713445660514514047171580093496865901477602143224540557412340472969236184020377745408638077439397456141948699754273791418869985027499602243785773646750786158629119897527698459159582903277348091197804306308450975276589715725867107713970624879795449576651053772645338545136289129326403509065092108109101077472046144122638474948527343653345105797020149055603954704727773430317796884279167058635246262041734914578626456397727386204475718614091025348906121070916929137541182355893615952208805117487445236884750886234300399097674869962426348425792929710270231641017897005896324246640151098893336183040 0 0 0 0 1 0)) 1) 1 = ([112], (pstate.mk 256 22396214741844620593611418816225311056169764235187206444291723239455175282839406674791165778862096172130772554599479848654595252386748546403113158097231863711943352817029492137157947556039805918596437489146223736606593185446153189536904463488826604400619766813149839795335878289669078644285080428541631556386898102632471182105395747652111222487820560049434420041344999315534676743163259116351110774451141302121467337294812865159351886296156482617696072752719540452005506777285541443129980448050386754573754830493446476198435213589643993891128598186489375664320695807827062875898526640454804439204163373164722612780435 0 7 178 157 7 112)) := by
  have h1 : pstate.pabsorbStop (pstate.mk 256 32316509077753586139510713445660514514047171580093496865901477602143224540557412340472969236184020377745408638077439397456141948699754273791418869985027499602243785773646750786158629119897527698459159582903277348091197804306308450975276589715725867107713970624879795449576651053772645338545136289129326403509065092108109101077472046144122638474948527343653345105797020149055603954704727773430317796884279167058635246262041734914578626456397727386204475718614091025348906121070916929137541182355893615952208805117487445236884750886234300399097674869962426348425792929710270231641017897005896324246640151098893336183040 0 0 0 0 1 0) = (pstate.mk 256 32316509077753586139510713445660514514047171580093496865901477602143224540557412340472969236184020377745408638077439397456141948699754273791418869985027499602243785773646750786158629119897527698459159582903277348091197804306308450975276589715725867107713970624879795449576651053772645338545136289129326403509065092108109101077472046144122638474948527343653345105797020149055603954704727773430317796884279167058635246262041734914578626456397727386204475718614091025348906121070916929137541182355893615952208805117487445236884750886234300399097674869962426348425792929710270231641017897005896324246640151098893336183040 1 0 0 0 1 0) := by decide
  have h2 : pstate.pabsorbValue (pstate.mk 256 32316509077753586139510713445660514514047171580093496865901477602143224540557412340472969236184020377745408638077439397456141948699754273791418869985027499602243785773646750786158629119897527698459159582903277348091197804306308450975276589715725867107713970624879795449576651053772645338545136289129326403509065092108109101077472046144122638474948527343653345105797020149055603954704727773430317796884279167058635246262041734914578626456397727386204475718614091025348906121070916929137541182355893615952208805117487445236884750886234300399097674869962426348425792929710270231641017897005896324246640151098893336183040 1 0 0 0 1 0) 1 = (pstate.mk 256 32316509077753586139510713445660514514047171580093496865901477602143224540557412340472969236184020377745408638077439397456141948699754273791418869985027499602243785773646750786158629119897527698459159582903277348091197804306308450975276589715725867107713970624879795449576651053772645338545136289129326397595733294292007154192695551562704679711975052810830104753587930546596966008556046486117664753610789288333609281772428628086347971074977347106481092263752243743051819803545644250452329618966873650662498179233307685074756205913260277196199816739991287097174094470928575926816309996654108192992429044439664574890240 3 0 0 0 1 0) := by decide
  rw [h1, h2]
  unfold pstate.psqueeze
  rw [if_pos (by decide : ((pstate.mk 256 32316509077753586139510713445660514514047171580093496865901477602143224540557412340472969236184020377745408638077439397456141948699754273791418869985027499602243785773646750786158629119897527698459159582903277348091197804306308450975276589715725867107713970624879795449576651053772645338545136289129326397595733294292007154192695551562704679711975052810830104753587930546596966008556046486117664753610789288333609281772428628086347971074977347106481092263752243743051819803545644250452329618966873650662498179233307685074756205913260277196199816739991287097174094470928575926816309996654108192992429044439664574890240 3 0 0 0 1 0) : pstate).a > 0), scAs_sh]
  decide

theorem scBs_i1 : iterP 256 (pstate.mk 256 22396214741844620593611418816225311056169764235187206444291723239455175282839406674791165778862096172130772554599479848654595252386748546403113158097231863711943352817029492137157947556039805918596437489146223736606593185446153189536904463488826604400619766813149839795335878289669078644285080428541631564134056667321621586464836467357413312014492350801304595239814346808024340581227265320422940983603906132292774990352509613464896973353440828946956096160856930511912873921863629425374134163750812832404364650596770084278538869138081871009414096943439161218910953760073585526425090359238178596083844398320661817136275 3 0 0 0 1 0) = (pstate.mk 256 8461893708462372530731707862643635931210546558988667780760156563829583896444913084896267641836486461530720315332761900386076702153820215187827774369596581002665708078783743618399168332139591022007402981718604757575894183723285283930086275341906559511160306202655569464755443988894669131785213447540782214948196314260266268714617571426699462859824522177508001779131086705413674541835161720700567545813881050017301159432259435109748139138558917186336493336143110714467133725698601944226871203761040986327676121963845711802232022589232981569441169764542630569827876672045818477469112983658480126858239565386363122339170 3 0 242 149 1 0) := by decide

theorem scBs_i2 : iterP 256 (pstate.mk 256 8461893708462372530731707862643635931210546558988667780760156563829583896444913084896267641836486461530720315332761900386076702153820215187827774369596581002665708078783743618399168332139591022007402981718604757575894183723285283930086275341906559511160306202655569464755443988894669131785213447540782214948196314260266268714617571426699462859824522177508001779131086705413674541835161720700567545813881050017301159432259435109748139138558917186336493336143110714467133725698601944226871203761040986327676121963845711802232022589232981569441169764542630569827876672045818477469112983658480126858239565386363122339170 3 0 242 149 1 0) = (pstate.mk 256 13141667067008046114901931606377744937616135875794319064500273593437960747521825576250900148374404619587663283421506917567810941954676817981928031888617204534679173426418753240736765028716304870987405022662169725693146113549266939529611874978223761648856172492114449583874395093483166596272467554776759252697679684594066564243845860747222090222212646978688224238414634899272134495403153542853814219063465153682543494478594754098425709958972351745087742845362831228325140699262376180188676439932924733275733878373612600495701154335755164375466581332486037026945770848220935755536852944876164599969643528211503810916690 3 0 122 172 1 0) := by decide

theorem scBs_w1 : pstate.pwhip (pstate.mk 256 22396214741844620593611418816225311056169764235187206444291723239455175282839406674791165778862096172130772554599479848654595252386748546403113158097231863711943352817029492137157947556039805918596437489146223736606593185446153189536904463488826604400619766813149839795335878289669078644285080428541631564134056667321621586464836467357413312014492350801304595239814346808024340581227265320422940983603906132292774990352509613464896973353440828946956096160856930511912873921863629425374134163750812832404364650596770084278538869138081871009414096943439161218910953760073585526425090359238178596083844398320661817136275 3 0 0 0 1 0) = (pstate.mk 256 13141667067008046114901931606377744937616135875794319064500273593437960747521825576250900148374404619587663283421506917567810941954676817981928031888617204534679173426418753240736765028716304870987405022662169725693146113549266939529611874978223761648856172492114449583874395093483166596272467554776759252697679684594066564243845860747222090222212646978688224238414634899272134495403153542853814219063465153682543494478594754098425709958972351745087742845362831228325140699262376180188676439932924733275733878373612600495701154335755164375466581332486037026945770848220935755536852944876164599969643528211503810916690 3 0 122 172 3 0) :=
  (pwhip_literal _ _ _ rfl scBs_i1 scBs_i2).trans (by decide)

theorem scBs_c1 : pstate.pcrush (pstate.mk 256 13141667067008046114901931606377744937616135875794319064500273593437960747521825576250900148374404619587663283421506917567810941954676817981928031888617204534679173426418753240736765028716304870987405022662169725693146113549266939529611874978223761648856172492114449583874395093483166596272467554776759252697679684594066564243845860747222090222212646978688224238414634899272134495403153542853814219063465153682543494478594754098425709958972351745087742845362831228325140699262376180188676439932924733275733878373612600495701154335755164375466581332486037026945770848220935755536852944876164599969643528211503810916690 3 0 122 172 3 0) = (pstate.mk 256 13216421765029347569835410290231639305918045029265748531589778055070939139520131938216983421307090047283792192974861956224138327724339632736498940824471555313112476852601762500571791946258378130462508045702092163988997613235352548968617876086892957826707037872951869523439279157059040030079039301221166727317756488178472985152611903035278388514746701234322285962164562419917997258114814534259854550143239819542261937117156296417499560194454041401910022848955155205095976582563841911978334818851495694249931537856499705986528991931676387042776494606718890200373600189830862390863219590237523625078406416545830133570130 3 0 122 172 3 0) := by decide

theorem scBs_i3 : iterP 256 (pstate.mk 256 13216421765029347569835410290231639305918045029265748531589778055070939139520131938216983421307090047283792192974861956224138327724339632736498940824471555313112476852601762500571791946258378130462508045702092163988997613235352548968617876086892957826707037872951869523439279157059040030079039301221166727317756488178472985152611903035278388514746701234322285962164562419917997258114814534259854550143239819542261937117156296417499560194454041401910022848955155205095976582563841911978334818851495694249931537856499705986528991931676387042776494606718890200373600189830862390863219590237523625078406416545830133570130 3 0 122 172 3 0) = (pstate.mk 256 6458371611946775956786112455961023715322719846438407303714467552560179536326168845190872558187618120375347844430427669333678374661592292213984486867394798044096299573780552544674893578341783102201939203108560070621013326936157792222953124751927841086503224561750956395866000597646471257812800652449587337750178334064865789469183586661331045818219104951055349780559526631294515662229628186970844098313611429287301139535617779164256007418806257398884250000161451105749067229219652004935389908719125318418140760860765364267604849930922293327128789545703724753479197695522788801431226421692738225152690760142533716531610 3 0 96 74 3 0) := by decide

theorem scBs_i4 : iterP 256 (pstate.mk 256 6458371611946775956786112455961023715322719846438407303714467552560179536326168845190872558187618120375347844430427669333678374661592292213984486867394798044096299573780552544674893578341783102201939203108560070621013326936157792222953124751927841086503224561750956395866000597646471257812800652449587337750178334064865789469183586661331045818219104951055349780559526631294515662229628186970844098313611429287301139535617779164256007418806257398884250000161451105749067229219652004935389908719125318418140760860765364267604849930922293327128789545703724753479197695522788801431226421692738225152690760142533716531610 3 0 96 74 3 0) = (pstate.mk 256 7394294080374253466270210412020983161730422022708180396405558531635461008250410918225865091922943832764151225227077392752963019986018092023173108863952875220347591001325028540995261494327851445208713087633131262926022623383982514685847550374799843323521769499347360666718180423757560929700711968567372341488051088229727067701435707405846038131990980034132383017518764392838762865231721841625743976873581380250143727323286230166294976268615987918799597194083323275705436953782419951960162016077549916701232889869443382458358618524466155286540129352370166671321343123023334262583621269290899558438625348003871804208080 3 0 100 118 3 0) := by decide

theorem scBs_w2 : pstate.pwhip (pstate.mk 256 13216421765029347569835410290231639305918045029265748531589778055070939139520131938216983421307090047283792192974861956224138327724339632736498940824471555313112476852601762500571791946258378130462508045702092163988997613235352548968617876086892957826707037872951869523439279157059040030079039301221166727317756488178472985152611903035278388514746701234322285962164562419917997258114814534259854550143239819542261937117156296417499560194454041401910022848955155205095976582563841911978334818851495694249931537856499705986528991931676387042776494606718890200373600189830862390863219590237523625078406416545830133570130 3 0 122 172 3 0) = (pstate.mk 256 7394294080374253466270210412020983161730422022708180396405558531635461008250410918225865091922943832764151225227077392752963019986018092023173108863952875220347591001325028540995261494327851445208713087633131262926022623383982514685847550374799843323521769499347360666718180423757560929700711968567372341488051088229727067701435707405846038131990980034132383017518764392838762865231721841625743976873581380250143727323286230166294976268615987918799597194083323275705436953782419951960162016077549916701232889869443382458358618524466155286540129352370166671321343123023334262583621269290899558438625348003871804208080 3 0 100 118 5 0) :=
  (pwhip_literal _ _ _ rfl scBs_i3 scBs_i4).trans (by decide)

theorem scBs_c2 : pstate.pcrush (pstate.mk 256 7394294080374253466270210412020983161730422022708180396405558531635461008250410918225865091922943832764151225227077392752963019986018092023173108863952875220347591001325028540995261494327851445208713087633131262926022623383982514685847550374799843323521769499347360666718180423757560929700711968567372341488051088229727067701435707405846038131990980034132383017518764392838762865231721841625743976873581380250143727323286230166294976268615987918799597194083323275705436953782419951960162016077549916701232889869443382458358618524466155286540129352370166671321343123023334262583621269290899558438625348003871804208080 3 0 100 118 5 0) = (pstate.mk 256 26346312735651321235486037406340804857894276280132657726609107231524356510843478207660540562250208395391509532348607093175234727932280780572205161777509639897049319808686419227637278241170251226033993229036380680647328583673809538634805630558250337643544964346816549402518959443591025491836686515107196320528712745255007304876112813446955639696216280484322512407660322131001558186164998006708357017424834975757818341977004462129763671179985746025414374198244503843091567406581666138529154625817469412726025881682431370751177698114367472450343288601968404306486675017968280206580138671484323803088060029960900254208570 3 0 100 118 5 0) := by decide

theorem scBs_i5 : iterP 256 (pstate.mk 256 26346312735651321235486037406340804857894276280132657726609107231524356510843478207660540562250208395391509532348607093175234727932280780572205161777509639897049319808686419227637278241170251226033993229036380680647328583673809538634805630558250337643544964346816549402518959443591025491836686515107196320528712745255007304876112813446955639696216280484322512407660322131001558186164998006708357017424834975757818341977004462129763671179985746025414374198244503843091567406581666138529154625817469412726025881682431370751177698114367472450343288601968404306486675017968280206580138671484323803088060029960900254208570 3 0 100 118 5 0) = (pstate.mk 256 6304483833615664633193391775366515399157912250209472965350150490175768225744833201155088753392243128273210863097875829150282130675512368091000786339483621749685400265153105743164724348814495651529570856513537171875225862893961162230934543542549899164627012305214144194279081876140372785999729296257532890023739649317578683635167319270032965255934453128868313687715934424024774100158567547129890300621329225843484674695731647423775512726608489361260795843604386467580949670270291401480274256050160559525997320171638207043051258177220497456593605028776079748211446796513180923248800163510798588889269669949433962080775 3 0 50 50 5 0) := by decide

theorem scBs_i6 : iterP 256 (pstate.mk 256 6304483833615664633193391775366515399157912250209472965350150490175768225744833201155088753392243128273210863097875829150282130675512368091000786339483621749685400265153105743164724348814495651529570856513537171875225862893961162230934543542549899164627012305214144194279081876140372785999729296257532890023739649317578683635167319270032965255934453128868313687715934424024774100158567547129890300621329225843484674695731647423775512726608489361260795843604386467580949670270291401480274256050160559525997320171638207043051258177220497456593605028776079748211446796513180923248800163510798588889269669949433962080775 3 0 50 50 5 0) = (pstate.mk 256 14939831306825910947589881612414369031279174733838825716043338532370377164365873543114977920399179100599620861125102938186293771412044814879298232780344957243342339359242254812928207268606703929736879623533577711981571970709276480317572115277635096660414150081932187604274249277962387512724597880168877735399559980413385927742147284794462705449192243446327980008727566475742530963638432120176538945635372283780728702082691192164842744713840540159573514193702999424314937473860903849338968144720661804549058224947658306628919007462998538353092430721543663932601130881741242217549247907790807182944953714280719204012995 3 0 173 39 5 0) := by decide

theorem scBs_w3 : pstate.pwhip (pstate.mk 256 26346312735651321235486037406340804857894276280132657726609107231524356510843478207660540562250208395391509532348607093175234727932280780572205161777509639897049319808686419227637278241170251226033993229036380680647328583673809538634805630558250337643544964346816549402518959443591025491836686515107196320528712745255007304876112813446955639696216280484322512407660322131001558186164998006708357017424834975757818341977004462129763671179985746025414374198244503843091567406581666138529154625817469412726025881682431370751177698114367472450343288601968404306486675017968280206580138671484323803088060029960900254208570 3 0 100 118 5 0) = (pstate.mk 256 14939831306825910947589881612414369031279174733838825716043338532370377164365873543114977920399179100599620861125102938186293771412044814879298232780344957243342339359242254812928207268606703929736879623533577711981571970709276480317572115277635096660414150081932187604274249277962387512724597880168877735399559980413385927742147284794462705449192243446327980008727566475742530963638432120176538945635372283780728702082691192164842744713840540159573514193702999424314937473860903849338968144720661804549058224947658306628919007462998538353092430721543663932601130881741242217549247907790807182944953714280719204012995 3 0 173 39 7 0) :=
  (pwhip_literal _ _ _ rfl scBs_i5 scBs_i6).trans (by decide)

theorem scBs_sh : pstate.pshuffle (pstate.mk 256 22396214741844620593611418816225311056169764235187206444291723239455175282839406674791165778862096172130772554599479848654595252386748546403113158097231863711943352817029492137157947556039805918596437489146223736606593185446153189536904463488826604400619766813149839795335878289669078644285080428541631564134056667321621586464836467357413312014492350801304595239814346808024340581227265320422940983603906132292774990352509613464896973353440828946956096160856930511912873921863629425374134163750812832404364650596770084278538869138081871009414096943439161218910953760073585526425090359238178596083844398320661817136275 3 0 0 0 1 0) = (pstate.mk 256 14939831306825910947589881612414369031279174733838825716043338532370377164365873543114977920399179100599620861125102938186293771412044814879298232780344957243342339359242254812928207268606703929736879623533577711981571970709276480317572115277635096660414150081932187604274249277962387512724597880168877735399559980413385927742147284794462705449192243446327980008727566475742530963638432120176538945635372283780728702082691192164842744713840540159573514193702999424314937473860903849338968144720661804549058224947658306628919007462998538353092430721543663932601130881741242217549247907790807182944953714280719204012995 0 0 173 39 7 0) :=
  (pshuffle_lit _ _ _ _ _ _ scBs_w1 scBs_c1 scBs_w2 scBs_c2 scBs_w3).trans (by decide)

theorem scB_pipe : pstate.psqueeze (pstate.pabsorbValue (pstate.pabsorbStop (pstate.mk 256 22396214741844620593611418816225311056169764235187206444291723239455175282839406674791165778862096172130772554599479848654595252386748546403113158097231863711943352817029492137157947556039805918596437489146223736606593185446153189536904463488826604400619766813149839795335878289669078644285080428541631556386898102632471182105395747652111222487820560049434420041344999315534676743163259116351110774451141302121467337294812865159351886296156482617696072752719540452005506777285541443129980448050386754573754830493446476198435213589643993891128598186489375664320695807827062875898526640454804439204163373164722612780435 0 0 0 0 1 0)) 1) 1 = ([81], (pstate.mk 256 14939831306825910947589881612414369031279174733838825716043338532370377164365873543114977920399179100599620861125102938186293771412044814879298232780344957243342339359242254812928207268606703929736879623533577711981571970709276480317572115277635096660414150081932187604274249277962387512724597880168877735399559980413385927742147284794462705449192243446327980008727566475742530954786545284535863258304026065019293332948261656619737612351864990485024568726570580259816013587367628479543707194575826617898579954861220898309644462895398837268517396881833175250230969835479338051595323288922790025854275790474442918122435 0 7 98 23 7 81)) := by
  have h1 : pstate.pabsorbStop (pstate.mk 256 22396214741844620593611418816225311056169764235187206444291723239455175282839406674791165778862096172130772554599479848654595252386748546403113158097231863711943352817029492137157947556039805918596437489146223736606593185446153189536904463488826604400619766813149839795335878289669078644285080428541631556386898102632471182105395747652111222487820560049434420041344999315534676743163259116351110774451141302121467337294812865159351886296156482617696072752719540452005506777285541443129980448050386754573754830493446476198435213589643993891128598186489375664320695807827062875898526640454804439204163373164722612780435 0 0 0 0 1 0) = (pstate.mk 256 22396214741844620593611418816225311056169764235187206444291723239455175282839406674791165778862096172130772554599479848654595252386748546403113158097231863711943352817029492137157947556039805918596437489146223736606593185446153189536904463488826604400619766813149839795335878289669078644285080428541631556386898102632471182105395747652111222487820560049434420041344999315534676743163259116351110774451141302121467337294812865159351886296156482617696072752719540452005506777285541443129980448050386754573754830493446476198435213589643993891128598186489375664320695807827062875898526640454804439204163373164722612780435 1 0 0 0 1 0) := by decide
  have h2 : pstate.pabsorbValue (pstate.mk 256 22396214741844620593611418816225311056169764235187206444291723239455175282839406674791165778862096172130772554599479848654595252386748546403113158097231863711943352817029492137157947556039805918596437489146223736606593185446153189536904463488826604400619766813149839795335878289669078644285080428541631556386898102632471182105395747652111222487820560049434420041344999315534676743163259116351110774451141302121467337294812865159351886296156482617696072752719540452005506777285541443129980448050386754573754830493446476198435213589643993891128598186489375664320695807827062875898526640454804439204163373164722612780435 1 0 0 0 1 0) 1 = (pstate.mk 256 22396214741844620593611418816225311056169764235187206444291723239455175282839406674791165778862096172130772554599479848654595252386748546403113158097231863711943352817029492137157947556039805918596437489146223736606593185446153189536904463488826604400619766813149839795335878289669078644285080428541631564134056667321621586464836467357413312014492350801304595239814346808024340581227265320422940983603906132292774990352509613464896973353440828946956096160856930511912873921863629425374134163750812832404364650596770084278538869138081871009414096943439161218910953760073585526425090359238178596083844398320661817136275 3 0 0 0 1 0) := by decide
  rw [h1, h2]
  unfold pstate.psqueeze
  rw [if_pos (by decide : ((pstate.mk 256 22396214741844620593611418816225311056169764235187206444291723239455175282839406674791165778862096172130772554599479848654595252386748546403113158097231863711943352817029492137157947556039805918596437489146223736606593185446153189536904463488826604400619766813149839795335878289669078644285080428541631564134056667321621586464836467357413312014492350801304595239814346808024340581227265320422940983603906132292774990352509613464896973353440828946956096160856930511912873921863629425374134163750812832404364650596770084278538869138081871009414096943439161218910953760073585526425090359238178596083844398320661817136275 3 0 0 0 1 0) : pstate).a > 0), scBs_sh]
  decide

theorem c2_absA : pstate.pabsorb (pstate.mk 256 32316509077753586139510713445660514514047171580093496865901477602143224540557412340472969236184020377745408638077439397456141948699754273791418869985027499602243785773646750786158629119897527698459159582903277348091197804306308450975276589715725867107713970624879795449576651053772645338545136289129326403509065092108109101077472046144122638474948527343653345105797020149055603954704727773430317796884279167058635246262041734914578626456397727386204475718614091025348906121070916929137541182355893615952208805117487445236884750886234300399097674869962426348425792929710270231641017897005896324246640151098893336183040 0 0 0 0 1 0) [1] = (pstate.mk 256 32316509077753586139510713445660514514047171580093496865901477602143224540557412340472969236184020377745408638077439397456141948699754273791418869985027499602243785773646750786158629119897527698459159582903277348091197804306308450975276589715725867107713970624879795449576651053772645338545136289129326397549532580726045635364052408159426744057993044452012825834316399689059668326542298961011586081752052530905740014645480535168039000489672275125819302589407393777965471193355214534442659181446627461963055860547461202483351480551247316657404147330998687146193013224989897279149867790464821102649742467726238963368065 2 0 0 0 1 0) := by decide

theorem scCs_i1 : iterP 256 (pstate.mk 256 32316509077753586139510713445660514514047171580093496865901477602143224540557412340472969236184020377745408638077439397456141948699754273791418869985027499602243785773646750786158629119897527698459159582903277348091197804306308450975276589715725867107713970624879795449576651053772645338545136289129326397688134721423930191849981838369260551019939069528464662592130992261671561372583541536329822097328262803189347816026324813922965912245587491067804671612441943673224517023926503682471670494007366028061382816605000650257565656637286198273791155557976486999136256962805933222149194409032682373677802197866502837928065 5 0 0 0 1 0) = (pstate.mk 256 5385750072451533885559320073506067110318165224789038914840398024847114761992391012463254710658449052201448433905454492568656484695442948077196839460476258997472365536502469087175986956164502016382736197579945806247798275258808151176270672279573721586116615995718204044046036543294208518710458114339567652299843699381778059966614090148049510858548805850398676530962111208960614444369610357716032359275479114316193329192184769494449849821169278061800887520046569667096268530117049463312954716021510365471404192771521269882169396333629998858427727588669551090580030110133744465435865640016962259339395094631033992642845 5 0 201 135 1 0) := by decide

theorem scCs_i2 : iterP 256 (pstate.mk 256 5385750072451533885559320073506067110318165224789038914840398024847114761992391012463254710658449052201448433905454492568656484695442948077196839460476258997472365536502469087175986956164502016382736197579945806247798275258808151176270672279573721586116615995718204044046036543294208518710458114339567652299843699381778059966614090148049510858548805850398676530962111208960614444369610357716032359275479114316193329192184769494449849821169278061800887520046569667096268530117049463312954716021510365471404192771521269882169396333629998858427727588669551090580030110133744465435865640016962259339395094631033992642845 5 0 201 135 1 0) = (pstate.mk 256 10563621653842725231588014974899393983183549428262997576876581300797781715008467003487335355912255842935081214784678027638251253298047985267304166363265158223125518780317113288819297409550766167746609132673146092339368902580169309889452160116552869277598278892328222837456833924809368663183900412569973275532746673639376392833600641542036256721492886185826468115411596100321343247306052112588195570203101498102271931075280497194729570779785059602873594528667658365425060547830317749547722165125887444046708051582084401277401694999791631914323625583281985459938954195079805320928107911623146391056848362612715330117390 5 0 249 237 1 0) := by decide

theorem scCs_w1 : pstate.pwhip (pstate.mk 256 32316509077753586139510713445660514514047171580093496865901477602143224540557412340472969236184020377745408638077439397456141948699754273791418869985027499602243785773646750786158629119897527698459159582903277348091197804306308450975276589715725867107713970624879795449576651053772645338545136289129326397688134721423930191849981838369260551019939069528464662592130992261671561372583541536329822097328262803189347816026324813922965912245587491067804671612441943673224517023926503682471670494007366028061382816605000650257565656637286198273791155557976486999136256962805933222149194409032682373677802197866502837928065 5 0 0 0 1 0) = (pstate.mk 256 10563621653842725231588014974899393983183549428262997576876581300797781715008467003487335355912255842935081214784678027638251253298047985267304166363265158223125518780317113288819297409550766167746609132673146092339368902580169309889452160116552869277598278892328222837456833924809368663183900412569973275532746673639376392833600641542036256721492886185826468115411596100321343247306052112588195570203101498102271931075280497194729570779785059602873594528667658365425060547830317749547722165125887444046708051582084401277401694999791631914323625583281985459938954195079805320928107911623146391056848362612715330117390 5 0 249 237 3 0) :=
  (pwhip_literal _ _ _ rfl scCs_i1 scCs_i2).trans (by decide)

theorem scCs_c1 : pstate.pcrush (pstate.mk 256 10563621653842725231588014974899393983183549428262997576876581300797781715008467003487335355912255842935081214784678027638251253298047985267304166363265158223125518780317113288819297409550766167746609132673146092339368902580169309889452160116552869277598278892328222837456833924809368663183900412569973275532746673639376392833600641542036256721492886185826468115411596100321343247306052112588195570203101498102271931075280497194729570779785059602873594528667658365425060547830317749547722165125887444046708051582084401277401694999791631914323625583281985459938954195079805320928107911623146391056848362612715330117390 5 0 249 237 3 0) = (pstate.mk 256 10563848950599950322400425663597866947106510351924059422445313355056867372128570920606524993957544034385282574549361062093298580101433646938792642418597222900270502325574568830496170449379245292838759027169801173489931691628521021654018721361658670231769811607765993266345681527227979547585438009116367382344013135015132922147634754729107423692811208340743563630567199477435773634003995554965640265815002874210984744949612306619646280424653671943246747049324011369169069348440960572712312805606075964761579999801791245597362502184825067197216867741701292784337574085663432165673519670289437276213225102990703731187470 5 0 249 237 3 0) := by decide

theorem scCs_i3 : iterP 256 (pstate.mk 256 10563848950599950322400425663597866947106510351924059422445313355056867372128570920606524993957544034385282574549361062093298580101433646938792642418597222900270502325574568830496170449379245292838759027169801173489931691628521021654018721361658670231769811607765993266345681527227979547585438009116367382344013135015132922147634754729107423692811208340743563630567199477435773634003995554965640265815002874210984744949612306619646280424653671943246747049324011369169069348440960572712312805606075964761579999801791245597362502184825067197216867741701292784337574085663432165673519670289437276213225102990703731187470 5 0 249 237 3 0) = (pstate.mk 256 7463977323222727817078125317132502121634961438251993114938103084193315279559830116719969685062131587359066048763370105036236039496312700340438922765717123743591043711977439447098998286892141125656284515270105085478863182736610087719769274564510830312720203123343990921629702728640559234285546452214915806945370317975186200729506247610947079821197664888382224464270748602522207077606709230606745810677980487579282522868330547447482839303221059895086463810702899264470718231925084783454233483279646316178817703136870532776833321014576718120025050706328297756884672487099304532695877760759237744305406907247316607061045 5 0 50 44 3 0) := by decide

theorem scCs_i4 : iterP 256 (pstate.mk 256 7463977323222727817078125317132502121634961438251993114938103084193315279559830116719969685062131587359066048763370105036236039496312700340438922765717123743591043711977439447098998286892141125656284515270105085478863182736610087719769274564510830312720203123343990921629702728640559234285546452214915806945370317975186200729506247610947079821197664888382224464270748602522207077606709230606745810677980487579282522868330547447482839303221059895086463810702899264470718231925084783454233483279646316178817703136870532776833321014576718120025050706328297756884672487099304532695877760759237744305406907247316607061045 5 0 50 44 3 0) = (pstate.mk 256 12388206436722705825931103329681879084709567017996394157690041533060343505512618004604283154505634690819517495209122614500645598398295313604109928060586908795797717944433903255504131132775678227377841838859575939648074676620015604440061941101660486092824397560746458805635097416074836888013411684815025566417235454101195877454411038700857143836239345514058465826480761583850659453006844419067512909294141416499480203825079284490359314486280637161377330354756709100564370537361781400775464959533171137859112219895814881562889095227579496759149411231833688230109295766244579980414739590924029535622561092864207112367880 5 0 88 225 3 0) := by decide

theorem scCs_w2 : pstate.pwhip (pstate.mk 256 10563848950599950322400425663597866947106510351924059422445313355056867372128570920606524993957544034385282574549361062093298580101433646938792642418597222900270502325574568830496170449379245292838759027169801173489931691628521021654018721361658670231769811607765993266345681527227979547585438009116367382344013135015132922147634754729107423692811208340743563630567199477435773634003995554965640265815002874210984744949612306619646280424653671943246747049324011369169069348440960572712312805606075964761579999801791245597362502184825067197216867741701292784337574085663432165673519670289437276213225102990703731187470 5 0 249 237 3 0) = (pstate.mk 256 12388206436722705825931103329681879084709567017996394157690041533060343505512618004604283154505634690819517495209122614500645598398295313604109928060586908795797717944433903255504131132775678227377841838859575939648074676620015604440061941101660486092824397560746458805635097416074836888013411684815025566417235454101195877454411038700857143836239345514058465826480761583850659453006844419067512909294141416499480203825079284490359314486280637161377330354756709100564370537361781400775464959533171137859112219895814881562889095227579496759149411231833688230109295766244579980414739590924029535622561092864207112367880 5 0 88 225 5 0) :=
  (pwhip_literal _ _ _ rfl scCs_i3 scCs_i4).trans (by decide)

theorem scCs_c2 : pstate.pcrush (pstate.mk 256 12388206436722705825931103329681879084709567017996394157690041533060343505512618004604283154505634690819517495209122614500645598398295313604109928060586908795797717944433903255504131132775678227377841838859575939648074676620015604440061941101660486092824397560746458805635097416074836888013411684815025566417235454101195877454411038700857143836239345514058465826480761583850659453006844419067512909294141416499480203825079284490359314486280637161377330354756709100564370537361781400775464959533171137859112219895814881562889095227579496759149411231833688230109295766244579980414739590924029535622561092864207112367880 5 0 88 225 5 0) = (pstate.mk 256 12489295704375211458798374099474171687685503213531622587897583291227443897916318943577707543244163312481121947318718541674499204340698718994453065231978680306768118532392833886486663948046722662268222140552213058614922552525648703925220234262265852075212060313830539621109327039165508041575679172920667574366994992165081334948371688643649494338832575555019134444742272450155763541370420713752350744570701974800040779107263336921892641445421283884021348874555455279853957278053147569552296087014491885496272970686379704705262500793515829192683293317957074468932526693278342620697320806834622970346394280165200009830920 5 0 88 225 5 0) := by decide

theorem scCs_i5 : iterP 256 (pstate.mk 256 12489295704375211458798374099474171687685503213531622587897583291227443897916318943577707543244163312481121947318718541674499204340698718994453065231978680306768118532392833886486663948046722662268222140552213058614922552525648703925220234262265852075212060313830539621109327039165508041575679172920667574366994992165081334948371688643649494338832575555019134444742272450155763541370420713752350744570701974800040779107263336921892641445421283884021348874555455279853957278053147569552296087014491885496272970686379704705262500793515829192683293317957074468932526693278342620697320806834622970346394280165200009830920 5 0 88 225 5 0) = (pstate.mk 256 13698334347305773456543123615068164733197375549157014606865294839459956627374035700582156649602319402982776439350765858407391333692466873553045964762549810910495477512241042662484026088564389547939795352589196830874755566749820703888618906982661237158781193075257744120161592947465983858011792617291384681464982967648975786043583378689172410405531404772616102837847227991219457123938498231082236764263695990584936391514069574279535255779033089294613381260242994198345605841706287098711472284557842074925295357742503982563350557319355169640528032182076132536489571141121796626748955067340392513903922164643376846539395 5 0 177 146 5 0) := by decide

theorem scCs_i6 : iterP 256 (pstate.mk 256 13698334347305773456543123615068164733197375549157014606865294839459956627374035700582156649602319402982776439350765858407391333692466873553045964762549810910495477512241042662484026088564389547939795352589196830874755566749820703888618906982661237158781193075257744120161592947465983858011792617291384681464982967648975786043583378689172410405531404772616102837847227991219457123938498231082236764263695990584936391514069574279535255779033089294613381260242994198345605841706287098711472284557842074925295357742503982563350557319355169640528032182076132536489571141121796626748955067340392513903922164643376846539395 5 0 177 146 5 0) = (pstate.mk 256 25485066727694757877416203679497729662419071353757388825655474945230030022166445597863762705069647020257295071295607947410375783217758343038348354078990569166845332763453589887604631263214999256390825311326803726176784736174153081487645453042095117873873836485060330199464524965504839566995452524963931091725124142185221664407535792388208985637093914006838749242282634196053266379663230912490593904550830651169374733608092364636264469824538729787215261947794872321049391839097279415898524514301787450910474293729323679568063173698293582225632374152435794280729369919658650256003322668802689238698613967537611631514715 5 0 233 39 5 0) := by decide

theorem scCs_w3 : pstate.pwhip (pstate.mk 256 12489295704375211458798374099474171687685503213531622587897583291227443897916318943577707543244163312481121947318718541674499204340698718994453065231978680306768118532392833886486663948046722662268222140552213058614922552525648703925220234262265852075212060313830539621109327039165508041575679172920667574366994992165081334948371688643649494338832575555019134444742272450155763541370420713752350744570701974800040779107263336921892641445421283884021348874555455279853957278053147569552296087014491885496272970686379704705262500793515829192683293317957074468932526693278342620697320806834622970346394280165200009830920 5 0 88 225 5 0) = (pstate.mk 256 25485066727694757877416203679497729662419071353757388825655474945230030022166445597863762705069647020257295071295607947410375783217758343038348354078990569166845332763453589887604631263214999256390825311326803726176784736174153081487645453042095117873873836485060330199464524965504839566995452524963931091725124142185221664407535792388208985637093914006838749242282634196053266379663230912490593904550830651169374733608092364636264469824538729787215261947794872321049391839097279415898524514301787450910474293729323679568063173698293582225632374152435794280729369919658650256003322668802689238698613967537611631514715 5 0 233 39 7 0) :=
  (pwhip_literal _ _ _ rfl scCs_i5 scCs_i6).trans (by decide)

theorem scCs_sh : pstate.pshuffle (pstate.mk 256 32316509077753586139510713445660514514047171580093496865901477602143224540557412340472969236184020377745408638077439397456141948699754273791418869985027499602243785773646750786158629119897527698459159582903277348091197804306308450975276589715725867107713970624879795449576651053772645338545136289129326397688134721423930191849981838369260551019939069528464662592130992261671561372583541536329822097328262803189347816026324813922965912245587491067804671612441943673224517023926503682471670494007366028061382816605000650257565656637286198273791155557976486999136256962805933222149194409032682373677802197866502837928065 5 0 0 0 1 0) = (pstate.mk 256 25485066727694757877416203679497729662419071353757388825655474945230030022166445597863762705069647020257295071295607947410375783217758343038348354078990569166845332763453589887604631263214999256390825311326803726176784736174153081487645453042095117873873836485060330199464524965504839566995452524963931091725124142185221664407535792388208985637093914006838749242282634196053266379663230912490593904550830651169374733608092364636264469824538729787215261947794872321049391839097279415898524514301787450910474293729323679568063173698293582225632374152435794280729369919658650256003322668802689238698613967537611631514715 0 0 233 39 7 0) :=
  (pshuffle_lit _ _ _ _ _ _ scCs_w1 scCs_c1 scCs_w2 scCs_c2 scCs_w3).trans (by decide)

theorem scC_pipe : pstate.psqueeze (pstate.pabsorbValue (pstate.pabsorbStop (pstate.mk 256 32316509077753586139510713445660514514047171580093496865901477602143224540557412340472969236184020377745408638077439397456141948699754273791418869985027499602243785773646750786158629119897527698459159582903277348091197804306308450975276589715725867107713970624879795449576651053772645338545136289129326397549532580726045635364052408159426744057993044452012825834316399689059668326542298961011586081752052530905740014645480535168039000489672275125819302589407393777965471193355214534442659181446627461963055860547461202483351480551247316657404147330998687146193013224989897279149867790464821102649742467726238963368065 2 0 0 0 1 0)) 1) 1 = ([190], (pstate.mk 256 25485066727694757877416203679497729662419071353757388825655474945230030022166445597863762705069647020257295071295607947410375783217758343038348354078990569166845332763453589887604631263214999256390825311326803726176784736174153081487645453042095117873873836452744153241221004976151088092775570864802634343522779470963478982258928843188765760754730051701637343690774714259968133048426261052101657959818652679129087969186722018358083342675862776540651842750781796705449527238640747311504145656623769671023543600332906375857882824243136625785320639562887835681628286997503412405182741068705269602861426852573554054288475 0 7 148 234 7 190)) := by
  have h1 : pstate.pabsorbStop (pstate.mk 256 32316509077753586139510713445660514514047171580093496865901477602143224540557412340472969236184020377745408638077439397456141948699754273791418869985027499602243785773646750786158629119897527698459159582903277348091197804306308450975276589715725867107713970624879795449576651053772645338545136289129326397549532580726045635364052408159426744057993044452012825834316399689059668326542298961011586081752052530905740014645480535168039000489672275125819302589407393777965471193355214534442659181446627461963055860547461202483351480551247316657404147330998687146193013224989897279149867790464821102649742467726238963368065 2 0 0 0 1 0) = (pstate.mk 256 32316509077753586139510713445660514514047171580093496865901477602143224540557412340472969236184020377745408638077439397456141948699754273791418869985027499602243785773646750786158629119897527698459159582903277348091197804306308450975276589715725867107713970624879795449576651053772645338545136289129326397549532580726045635364052408159426744057993044452012825834316399689059668326542298961011586081752052530905740014645480535168039000489672275125819302589407393777965471193355214534442659181446627461963055860547461202483351480551247316657404147330998687146193013224989897279149867790464821102649742467726238963368065 3 0 0 0 1 0) := by decide
  have h2 : pstate.pabsorbValue (pstate.mk 256 32316509077753586139510713445660514514047171580093496865901477602143224540557412340472969236184020377745408638077439397456141948699754273791418869985027499602243785773646750786158629119897527698459159582903277348091197804306308450975276589715725867107713970624879795449576651053772645338545136289129326397549532580726045635364052408159426744057993044452012825834316399689059668326542298961011586081752052530905740014645480535168039000489672275125819302589407393777965471193355214534442659181446627461963055860547461202483351480551247316657404147330998687146193013224989897279149867790464821102649742467726238963368065 3 0 0 0 1 0) 1 = (pstate.mk 256 32316509077753586139510713445660514514047171580093496865901477602143224540557412340472969236184020377745408638077439397456141948699754273791418869985027499602243785773646750786158629119897527698459159582903277348091197804306308450975276589715725867107713970624879795449576651053772645338545136289129326397688134721423930191849981838369260551019939069528464662592130992261671561372583541536329822097328262803189347816026324813922965912245587491067804671612441943673224517023926503682471670494007366028061382816605000650257565656637286198273791155557976486999136256962805933222149194409032682373677802197866502837928065 5 0 0 0 1 0) := by decide
  rw [h1, h2]
  unfold pstate.psqueeze
  rw [if_pos (by decide : ((pstate.mk 256 32316509077753586139510713445660514514047171580093496865901477602143224540557412340472969236184020377745408638077439397456141948699754273791418869985027499602243785773646750786158629119897527698459159582903277348091197804306308450975276589715725867107713970624879795449576651053772645338545136289129326397688134721423930191849981838369260551019939069528464662592130992261671561372583541536329822097328262803189347816026324813922965912245587491067804671612441943673224517023926503682471670494007366028061382816605000650257565656637286198273791155557976486999136256962805933222149194409032682373677802197866502837928065 5 0 0 0 1 0) : pstate).a > 0), scCs_sh]
  decide

theorem c2_absB : pstate.pabsorb (pstate.mk 256 25485066727694757877416203679497729662419071353757388825655474945230030022166445597863762705069647020257295071295607947410375783217758343038348354078990569166845332763453589887604631263214999256390825311326803726176784736174153081487645453042095117873873836452744153241221004976151088092775570864802634343522779470963478982258928843188765760754730051701637343690774714259968133048426261052101657959818652679129087969186722018358083342675862776540651842750781796705449527238640747311504145656623769671023543600332906375857882824243136625785320639562887835681628286997503412405182741068705269602861426852573554054288475 2 0 0 0 1 0) [2] = (pstate.mk 256 25485066727694757877416203679497729662419071353757388825655474945230030022166445597863762705069647020257295071295607947410375783217758343038348354078990569166845332763453589887604631263214999256390825311326803726176784736174153081487645453042095117873873836452744153241221004976151088092775570864802635957554774979384368229990427745771866371124452738065353305249017306870295684043804104568391734074842095438924661426391146147510862967362159751819873572103925877962193226273095343284813804724094153156730319535696536029636899784377090969974570576909653448486849242463578801333778260064004634837687764290555962001675355 4 0 0 0 1 0) := by decide

theorem scDs_i1 : iterP 256 (pstate.mk 256 25485066727694757877416203679497729662419071353757388825655474945230030022166445597863762705069647020257295071295607947410375783217758343038348354078990569166845332763453589887604631263214999256390825311326803726176784736174153081487645453042095117873873836452744153241221004976151088092775570864802635956711117591193483374493064819734577063637536141847728830664809935997056236488588084586590850000783528891807966988154697120018162582316102542460940580112873812257328502430201620883127488135446233454137001241561603956479458632143912667217496349141551224479245295820815303693705834874719326219095436987518147829126235 7 0 0 0 1 0) = (pstate.mk 256 24820730101340753250968224475064826089912151527602268061766785142419550254555489745188229989468075103337614740509305115317786088924200061862134554442134400103195693875505467431800259203049006502130841923304955782529852770215023154417339729821009546578050399046347118019749363046463931021263467763117272313009593734459474889004443392651435227991749148394810994022078027314351465911198592930529209855330376022275274125344665355263023519445007628662355760039819836433506808282948160512682210943693728008445535702504245517642909318533896996746066733582473544541374972858171460335481759366764320569758113197877696198584200 7 0 50 28 1 0) := by decide

theorem scDs_i2 : iterP 256 (pstate.mk 256 24820730101340753250968224475064826089912151527602268061766785142419550254555489745188229989468075103337614740509305115317786088924200061862134554442134400103195693875505467431800259203049006502130841923304955782529852770215023154417339729821009546578050399046347118019749363046463931021263467763117272313009593734459474889004443392651435227991749148394810994022078027314351465911198592930529209855330376022275274125344665355263023519445007628662355760039819836433506808282948160512682210943693728008445535702504245517642909318533896996746066733582473544541374972858171460335481759366764320569758113197877696198584200 7 0 50 28 1 0) = (pstate.mk 256 29248125551774251630184081764533952489028727730279576434178073281443123491981593355945860800964346233413102548197058760445229834126097027639217417084861616901996346402381275630797294001953229884478748523787113182396518213354469146714666046308413532338569880875073823625331702782812087518178451421661918414957770922215220364507774693926358848182857924156497487028913539366145913497313490168986905120875849807416393192947364425411762801829503826812234535962663663522467406262850338019509165985296884678573566652351144584564824081211742538187771029324428950534255741095946801864335163931965844014013514429360372845696855 7 0 144 68 1 0) := by decide

theorem scDs_w1 : pstate.pwhip (pstate.mk 256 25485066727694757877416203679497729662419071353757388825655474945230030022166445597863762705069647020257295071295607947410375783217758343038348354078990569166845332763453589887604631263214999256390825311326803726176784736174153081487645453042095117873873836452744153241221004976151088092775570864802635956711117591193483374493064819734577063637536141847728830664809935997056236488588084586590850000783528891807966988154697120018162582316102542460940580112873812257328502430201620883127488135446233454137001241561603956479458632143912667217496349141551224479245295820815303693705834874719326219095436987518147829126235 7 0 0 0 1 0) = (pstate.mk 256 29248125551774251630184081764533952489028727730279576434178073281443123491981593355945860800964346233413102548197058760445229834126097027639217417084861616901996346402381275630797294001953229884478748523787113182396518213354469146714666046308413532338569880875073823625331702782812087518178451421661918414957770922215220364507774693926358848182857924156497487028913539366145913497313490168986905120875849807416393192947364425411762801829503826812234535962663663522467406262850338019509165985296884678573566652351144584564824081211742538187771029324428950534255741095946801864335163931965844014013514429360372845696855 7 0 144 68 3 0) :=
  (pwhip_literal _ _ _ rfl scDs_i1 scDs_i2).trans (by decide)

theorem scDs_c1 : pstate.pcrush (pstate.mk 256 29248125551774251630184081764533952489028727730279576434178073281443123491981593355945860800964346233413102548197058760445229834126097027639217417084861616901996346402381275630797294001953229884478748523787113182396518213354469146714666046308413532338569880875073823625331702782812087518178451421661918414957770922215220364507774693926358848182857924156497487028913539366145913497313490168986905120875849807416393192947364425411762801829503826812234535962663663522467406262850338019509165985296884678573566652351144584564824081211742538187771029324428950534255741095946801864335163931965844014013514429360372845696855 7 0 144 68 3 0) = (pstate.mk 256 29267357170047261238820339602123029806364941198177914095780044041113655195623143252873530061962944134049553707881572398774694720340244666511674360331224639301917575561358187673216297730823048644422502229136017928373522443359234399923751605964520266186061582931420153137761980253594875413775634062822100209171459159747959297814860734560882503717205839926429548769119964365799057318820816871853979205448574146485597676725430565477440929308563208476479481925176910063053172692322470344385087450710857250871421528240537781957023186163378228686518270352682761180632171965501148452321888478591914713334357620051955649917015 7 0 144 68 3 0) := by decide

theorem scDs_i3 : iterP 256 (pstate.mk 256 29267357170047261238820339602123029806364941198177914095780044041113655195623143252873530061962944134049553707881572398774694720340244666511674360331224639301917575561358187673216297730823048644422502229136017928373522443359234399923751605964520266186061582931420153137761980253594875413775634062822100209171459159747959297814860734560882503717205839926429548769119964365799057318820816871853979205448574146485597676725430565477440929308563208476479481925176910063053172692322470344385087450710857250871421528240537781957023186163378228686518270352682761180632171965501148452321888478591914713334357620051955649917015 7 0 144 68 3 0) = (pstate.mk 256 22646048738996029365858526126534207735975712044510300693499131382347930643298828068866948818677312732815483178574904694041802665276330722043332683836683689633676476419526863683721607393173038865913524113116714556567817205708995873048518116308628206086546980668053832123633560381579262372856166878046923503005648812992961823419957482234659040000824143149498097898742575762885032779857904702215184027143232906442026770107856334503893756012374415509075192765964851129676431631920875578758656392303155710334967396765544071104111092281870964514325230972307145424061572879710487607145187280664929777256875745927000871490790 7 0 36 153 3 0) := by decide

theorem scDs_i4 : iterP 256 (pstate.mk 256 22646048738996029365858526126534207735975712044510300693499131382347930643298828068866948818677312732815483178574904694041802665276330722043332683836683689633676476419526863683721607393173038865913524113116714556567817205708995873048518116308628206086546980668053832123633560381579262372856166878046923503005648812992961823419957482234659040000824143149498097898742575762885032779857904702215184027143232906442026770107856334503893756012374415509075192765964851129676431631920875578758656392303155710334967396765544071104111092281870964514325230972307145424061572879710487607145187280664929777256875745927000871490790 7 0 36 153 3 0) = (pstate.mk 256 24918201047530660826066495916566049799018951733207324610412669459766697686551218767795605217025032361620801367166982591992058242669012849308637108161332124871629474260997298159136713403045837617224097802660116746074533739440965473441578997245192160138875048396618106345227136462656199439163995345915808824835169912730030727335538781334310039452417550613382357767119037912462769661243427841658285641917904934540039036750367698961121457497092269582954787598550467362846099901334851293811663888445494990000946677590546793884722652517057064473160350266873051246776787808124326584738270886381990428038794835228332769129800 7 0 35 238 3 0) := by decide

theorem scDs_w2 : pstate.pwhip (pstate.mk 256 29267357170047261238820339602123029806364941198177914095780044041113655195623143252873530061962944134049553707881572398774694720340244666511674360331224639301917575561358187673216297730823048644422502229136017928373522443359234399923751605964520266186061582931420153137761980253594875413775634062822100209171459159747959297814860734560882503717205839926429548769119964365799057318820816871853979205448574146485597676725430565477440929308563208476479481925176910063053172692322470344385087450710857250871421528240537781957023186163378228686518270352682761180632171965501148452321888478591914713334357620051955649917015 7 0 144 68 3 0) = (pstate.mk 256 24918201047530660826066495916566049799018951733207324610412669459766697686551218767795605217025032361620801367166982591992058242669012849308637108161332124871629474260997298159136713403045837617224097802660116746074533739440965473441578997245192160138875048396618106345227136462656199439163995345915808824835169912730030727335538781334310039452417550613382357767119037912462769661243427841658285641917904934540039036750367698961121457497092269582954787598550467362846099901334851293811663888445494990000946677590546793884722652517057064473160350266873051246776787808124326584738270886381990428038794835228332769129800 7 0 35 238 5 0) :=
  (pwhip_literal _ _ _ rfl scDs_i3 scDs_i4).trans (by decide)

theorem scDs_c2 : pstate.pcrush (pstate.mk 256 24918201047530660826066495916566049799018951733207324610412669459766697686551218767795605217025032361620801367166982591992058242669012849308637108161332124871629474260997298159136713403045837617224097802660116746074533739440965473441578997245192160138875048396618106345227136462656199439163995345915808824835169912730030727335538781334310039452417550613382357767119037912462769661243427841658285641917904934540039036750367698961121457497092269582954787598550467362846099901334851293811663888445494990000946677590546793884722652517057064473160350266873051246776787808124326584738270886381990428038794835228332769129800 7 0 35 238 5 0) = (pstate.mk 256 24958669502025696416550938800317163873027946984093721446999083927865171694302301414999539379613074523845049821098087542483314320091406253768750652753922096099912875950556628863627156764926372390896087936777547507189887440496395154254456544683912150230165710934722950988207122520848230159475304462920661173952549492409123016947530424349510316109270037475553269098296204540015420876479560471465037973590734218740921048056838971816965488569842580031483298344013872859085860692472149627994308845716916206286125223036039783215823499352097948893968977376358431805529300096331164097855762129418367836177852580577758761083720 7 0 35 238 5 0) := by decide

theorem scDs_i5 : iterP 256 (pstate.mk 256 24958669502025696416550938800317163873027946984093721446999083927865171694302301414999539379613074523845049821098087542483314320091406253768750652753922096099912875950556628863627156764926372390896087936777547507189887440496395154254456544683912150230165710934722950988207122520848230159475304462920661173952549492409123016947530424349510316109270037475553269098296204540015420876479560471465037973590734218740921048056838971816965488569842580031483298344013872859085860692472149627994308845716916206286125223036039783215823499352097948893968977376358431805529300096331164097855762129418367836177852580577758761083720 7 0 35 238 5 0) = (pstate.mk 256 175094275196398990289655119575531850970732558348956373554632368848176588133789213550008890175261163579118362126291684923928342078362869813685294921479106858907699806367264562090368193717059274755801137481329964684997372303281530480234316472857093100515240248188868830844471267728894700611580369759586733560749173415779240132404673958564634294904206160771316705209589049867438447138479471441892153699394973182774643572027452664855326204047851651208132775133259467272230282507077512269437929702285288702879878641201624968317701830959580002919763838720708535788905792840547748834053863586809435117806206764770535841580 7 0 132 215 5 0) := by decide

theorem scDs_i6 : iterP 256 (pstate.mk 256 175094275196398990289655119575531850970732558348956373554632368848176588133789213550008890175261163579118362126291684923928342078362869813685294921479106858907699806367264562090368193717059274755801137481329964684997372303281530480234316472857093100515240248188868830844471267728894700611580369759586733560749173415779240132404673958564634294904206160771316705209589049867438447138479471441892153699394973182774643572027452664855326204047851651208132775133259467272230282507077512269437929702285288702879878641201624968317701830959580002919763838720708535788905792840547748834053863586809435117806206764770535841580 7 0 132 215 5 0) = (pstate.mk 256 7225832046498866255092196481195793981923108774561542507168680038428451690536490823611165516316458434335774277233758007745534192113350047211539637221012778527602051754641673773795321380501642224785584574580064888649963780464788897143138709654753015896545457875343711793338617846695710241936231387787985980146744014033810373304514736351146277428984525631009005125259764310563154433238744958804075007286902966037372101852734666412349954435897497278747178044316611076677074568288510915898414888785506646955191735410547082893605234085649442732153045283165522515361375021037811190665771778721651187423524750068338383604390 7 0 54 121 5 0) := by decide

theorem scDs_w3 : pstate.pwhip (pstate.mk 256 24958669502025696416550938800317163873027946984093721446999083927865171694302301414999539379613074523845049821098087542483314320091406253768750652753922096099912875950556628863627156764926372390896087936777547507189887440496395154254456544683912150230165710934722950988207122520848230159475304462920661173952549492409123016947530424349510316109270037475553269098296204540015420876479560471465037973590734218740921048056838971816965488569842580031483298344013872859085860692472149627994308845716916206286125223036039783215823499352097948893968977376358431805529300096331164097855762129418367836177852580577758761083720 7 0 35 238 5 0) = (pstate.mk 256 7225832046498866255092196481195793981923108774561542507168680038428451690536490823611165516316458434335774277233758007745534192113350047211539637221012778527602051754641673773795321380501642224785584574580064888649963780464788897143138709654753015896545457875343711793338617846695710241936231387787985980146744014033810373304514736351146277428984525631009005125259764310563154433238744958804075007286902966037372101852734666412349954435897497278747178044316611076677074568288510915898414888785506646955191735410547082893605234085649442732153045283165522515361375021037811190665771778721651187423524750068338383604390 7 0 54 121 7 0) :=
  (pwhip_literal _ _ _ rfl scDs_i5 scDs_i6).trans (by decide)

theorem scDs_sh : pstate.pshuffle (pstate.mk 256 25485066727694757877416203679497729662419071353757388825655474945230030022166445597863762705069647020257295071295607947410375783217758343038348354078990569166845332763453589887604631263214999256390825311326803726176784736174153081487645453042095117873873836452744153241221004976151088092775570864802635956711117591193483374493064819734577063637536141847728830664809935997056236488588084586590850000783528891807966988154697120018162582316102542460940580112873812257328502430201620883127488135446233454137001241561603956479458632143912667217496349141551224479245295820815303693705834874719326219095436987518147829126235 7 0 0 0 1 0) = (pstate.mk 256 7225832046498866255092196481195793981923108774561542507168680038428451690536490823611165516316458434335774277233758007745534192113350047211539637221012778527602051754641673773795321380501642224785584574580064888649963780464788897143138709654753015896545457875343711793338617846695710241936231387787985980146744014033810373304514736351146277428984525631009005125259764310563154433238744958804075007286902966037372101852734666412349954435897497278747178044316611076677074568288510915898414888785506646955191735410547082893605234085649442732153045283165522515361375021037811190665771778721651187423524750068338383604390 0 0 54 121 7 0) :=
  (pshuffle_lit _ _ _ _ _ _ scDs_w1 scDs_c1 scDs_w2 scDs_c2 scDs_w3).trans (by decide)

theorem scD_pipe : pstate.psqueeze (pstate.pabsorbValue (pstate.pabsorbStop (pstate.mk 256 25485066727694757877416203679497729662419071353757388825655474945230030022166445597863762705069647020257295071295607947410375783217758343038348354078990569166845332763453589887604631263214999256390825311326803726176784736174153081487645453042095117873873836452744153241221004976151088092775570864802635957554774979384368229990427745771866371124452738065353305249017306870295684043804104568391734074842095438924661426391146147510862967362159751819873572103925877962193226273095343284813804724094153156730319535696536029636899784377090969974570576909653448486849242463578801333778260064004634837687764290555962001675355 4 0 0 0 1 0)) 1) 1 = ([113], (pstate.mk 256 7225832046498866255092196481195793981968739441972624789953339387001083922211706346611424381001476081322735118848068992771463925907191828137278983738011690744882804448061248861571574598209751902908512144495600671176278928559177349906487783670169462885590487969118714455402183946959297441346228952737813183096950034398242809354695665705853723842188165205938230111553724193175326677884451134065140253190720217671717855853413568675848311702505279063702847628877284408315992803581587676040984600905161217058714152825905333781996006662537399045867535397758591265319340281353100936910518657138927282922259498240525384764070 0 7 239 157 7 113)) := by
  have h1 : pstate.pabsorbStop (pstate.mk 256 25485066727694757877416203679497729662419071353757388825655474945230030022166445597863762705069647020257295071295607947410375783217758343038348354078990569166845332763453589887604631263214999256390825311326803726176784736174153081487645453042095117873873836452744153241221004976151088092775570864802635957554774979384368229990427745771866371124452738065353305249017306870295684043804104568391734074842095438924661426391146147510862967362159751819873572103925877962193226273095343284813804724094153156730319535696536029636899784377090969974570576909653448486849242463578801333778260064004634837687764290555962001675355 4 0 0 0 1 0) = (pstate.mk 256 25485066727694757877416203679497729662419071353757388825655474945230030022166445597863762705069647020257295071295607947410375783217758343038348354078990569166845332763453589887604631263214999256390825311326803726176784736174153081487645453042095117873873836452744153241221004976151088092775570864802635957554774979384368229990427745771866371124452738065353305249017306870295684043804104568391734074842095438924661426391146147510862967362159751819873572103925877962193226273095343284813804724094153156730319535696536029636899784377090969974570576909653448486849242463578801333778260064004634837687764290555962001675355 5 0 0 0 1 0) := by decide
  have h2 : pstate.pabsorbValue (pstate.mk 256 25485066727694757877416203679497729662419071353757388825655474945230030022166445597863762705069647020257295071295607947410375783217758343038348354078990569166845332763453589887604631263214999256390825311326803726176784736174153081487645453042095117873873836452744153241221004976151088092775570864802635957554774979384368229990427745771866371124452738065353305249017306870295684043804104568391734074842095438924661426391146147510862967362159751819873572103925877962193226273095343284813804724094153156730319535696536029636899784377090969974570576909653448486849242463578801333778260064004634837687764290555962001675355 5 0 0 0 1 0) 1 = (pstate.mk 256 25485066727694757877416203679497729662419071353757388825655474945230030022166445597863762705069647020257295071295607947410375783217758343038348354078990569166845332763453589887604631263214999256390825311326803726176784736174153081487645453042095117873873836452744153241221004976151088092775570864802635956711117591193483374493064819734577063637536141847728830664809935997056236488588084586590850000783528891807966988154697120018162582316102542460940580112873812257328502430201620883127488135446233454137001241561603956479458632143912667217496349141551224479245295820815303693705834874719326219095436987518147829126235 7 0 0 0 1 0) := by decide
  rw [h1, h2]
  unfold pstate.psqueeze
  rw [if_pos (by decide : ((pstate.mk 256 25485066727694757877416203679497729662419071353757388825655474945230030022166445597863762705069647020257295071295607947410375783217758343038348354078990569166845332763453589887604631263214999256390825311326803726176784736174153081487645453042095117873873836452744153241221004976151088092775570864802635956711117591193483374493064819734577063637536141847728830664809935997056236488588084586590850000783528891807966988154697120018162582316102542460940580112873812257328502430201620883127488135446233454137001241561603956479458632143912667217496349141551224479245295820815303693705834874719326219095436987518147829126235 7 0 0 0 1 0) : pstate).a > 0), scDs_sh]
  decide

theorem c2_absF : pstate.pabsorb (pstate.mk 256 32316509077753586139510713445660514514047171580093496865901477602143224540557412340472969236184020377745408638077439397456141948699754273791418869985027499602243785773646750786158629119897527698459159582903277348091197804306308450975276589715725867107713970624879795449576651053772645338545136289129326403509065092108109101077472046144122638474948527343653345105797020149055603954704727773430317796884279167058635246262041734914578626456397727386204475718614091025348906121070916929137541182355893615952208805117487445236884750886234300399097674869962426348425792929710270231641017897005896324246640151098893336183040 0 0 0 0 1 0) [1, 2] = (pstate.mk 256 32316509077753586139510713445660514514047171580093496865901477602143224540557412340472969236184020377745408638077439397456141948699754273791418869985027499602243785773646750786158629119897527698459159582903277348091197804306308450975276589715725867107713970624879795449576651053772645338545136289129324889535590854242805888014462479763665286441653702721355837995097019445789010246329958143882468469960940546591726642195932118498231585261506331890905555712930793687948080006196232833985498850854020453114685502555558692159508678473065007301041585884392055241118981440260963868242904783885748062950623643981896143241345 4 0 0 0 1 0) := by decide

theorem scEs_i1 : iterP 256 (pstate.mk 256 32316509077753586139510713445660514514047171580093496865901477602143224540557412340472969236184020377745408638077439397456141948699754273791418869985027499602243785773646750786158629119897527698459159582903277348091197804306308450975276589715725867107713970624879795449576651053772645338545136289129324889766234883445641018976132335741897159764840149119653771276907813571160033304787693843147444874609809261688832750070929796374458858650402858549228809223376095264624287270298650443481246599252759208372990930080621093578856003918444884232072106708273400521697686648585184510095221322955224082054385814039853223018625 7 0 0 0 1 0) = (pstate.mk 256 31920537334268723021763693060286141558165870720491665318712872638140778514281303975823334667886587763491316333683931882846309990458027934227622465167541720240720582379253129367872725695759280292044770779030458879667865996606576767304190700827085505889904796167575818054298261140822810215307969836280756032232281549351809844601891986936799321934619941230736649882419905224053019602928522313091265795589728321995957990558812701182786334588969106492082274160406189482791980151217907154333877982733096112126995964128889778504800740248846851664923403477113797447328605087592753622365277556896804242579358969035491638010800 7 0 225 6 1 0) := by decide

theorem scEs_i2 : iterP 256 (pstate.mk 256 31920537334268723021763693060286141558165870720491665318712872638140778514281303975823334667886587763491316333683931882846309990458027934227622465167541720240720582379253129367872725695759280292044770779030458879667865996606576767304190700827085505889904796167575818054298261140822810215307969836280756032232281549351809844601891986936799321934619941230736649882419905224053019602928522313091265795589728321995957990558812701182786334588969106492082274160406189482791980151217907154333877982733096112126995964128889778504800740248846851664923403477113797447328605087592753622365277556896804242579358969035491638010800 7 0 225 6 1 0) = (pstate.mk 256 1372689693722426561231022267098399047908642051250365911614518610104788599952931284687719609347979890175967128011620789991963756719991746439702012285049750564649077065227487504121768808515743744283937673330571631377618979911127524251935122124881162119922336680592674731606083565763685459775579298005310191192880171692792914119321643314105063876796437474139259962778142113088366007385124893210649210956965000786073723629581844905866481095953950371807109121232517180585681992614189571595021881548071646012849675329104266303363673590686086897640795582680293580473688275055156456312638510546396445539902286703400451377450 7 0 230 220 1 0) := by decide

theorem scEs_w1 : pstate.pwhip (pstate.mk 256 32316509077753586139510713445660514514047171580093496865901477602143224540557412340472969236184020377745408638077439397456141948699754273791418869985027499602243785773646750786158629119897527698459159582903277348091197804306308450975276589715725867107713970624879795449576651053772645338545136289129324889766234883445641018976132335741897159764840149119653771276907813571160033304787693843147444874609809261688832750070929796374458858650402858549228809223376095264624287270298650443481246599252759208372990930080621093578856003918444884232072106708273400521697686648585184510095221322955224082054385814039853223018625 7 0 0 0 1 0) = (pstate.mk 256 1372689693722426561231022267098399047908642051250365911614518610104788599952931284687719609347979890175967128011620789991963756719991746439702012285049750564649077065227487504121768808515743744283937673330571631377618979911127524251935122124881162119922336680592674731606083565763685459775579298005310191192880171692792914119321643314105063876796437474139259962778142113088366007385124893210649210956965000786073723629581844905866481095953950371807109121232517180585681992614189571595021881548071646012849675329104266303363673590686086897640795582680293580473688275055156456312638510546396445539902286703400451377450 7 0 230 220 3 0) :=
  (pwhip_literal _ _ _ rfl scEs_i1 scEs_i2).trans (by decide)

theorem scEs_c1 : pstate.pcrush (pstate.mk 256 1372689693722426561231022267098399047908642051250365911614518610104788599952931284687719609347979890175967128011620789991963756719991746439702012285049750564649077065227487504121768808515743744283937673330571631377618979911127524251935122124881162119922336680592674731606083565763685459775579298005310191192880171692792914119321643314105063876796437474139259962778142113088366007385124893210649210956965000786073723629581844905866481095953950371807109121232517180585681992614189571595021881548071646012849675329104266303363673590686086897640795582680293580473688275055156456312638510546396445539902286703400451377450 7 0 230 220 3 0) = (pstate.mk 256 5412315452636302474436291024770279581455756531481586520366363273968086990002327911394533675166777569625687556755214801800980865849424314620300078922801485602738399947929101895968935010134182288024746976282337401236857094438242322761536949918202023786393462693115760431099756076293368736783073778775350499230346466379330963601290895116008645877356536114018987518114501411716122093068811207604456728268386781829878284169421675261785182945269176600073694255642224880749319843890967595998701320364113516079915449755016520331245994452575055623319831442981917355934086503965902159212752730894766796201630837776582722259210 7 0 230 220 3 0) := by decide

theorem scEs_i3 : iterP 256 (pstate.mk 256 5412315452636302474436291024770279581455756531481586520366363273968086990002327911394533675166777569625687556755214801800980865849424314620300078922801485602738399947929101895968935010134182288024746976282337401236857094438242322761536949918202023786393462693115760431099756076293368736783073778775350499230346466379330963601290895116008645877356536114018987518114501411716122093068811207604456728268386781829878284169421675261785182945269176600073694255642224880749319843890967595998701320364113516079915449755016520331245994452575055623319831442981917355934086503965902159212752730894766796201630837776582722259210 7 0 230 220 3 0) = (pstate.mk 256 17034543474766517166811213169405251433666732415372140397840244945620000184969499341193289574971722093334532584757129984606164871416996648185647560679624832345486997273681309434652689716094131151137902756497543796070334098695470450909122139657868504465138851513161220259656494234933769578075447905079615885704200582422915810135060888638486892231572021999836603449053099110292579399626876673145973655499589511461246997918415789061007104460138512494482320447990340297658397484408864980456110705999472646111366209635893324217699718946810235560462327783965014575442944185825060779998457323263052776938697762793961740567075 7 0 102 188 3 0) := by decide

theorem scEs_i4 : iterP 256 (pstate.mk 256 17034543474766517166811213169405251433666732415372140397840244945620000184969499341193289574971722093334532584757129984606164871416996648185647560679624832345486997273681309434652689716094131151137902756497543796070334098695470450909122139657868504465138851513161220259656494234933769578075447905079615885704200582422915810135060888638486892231572021999836603449053099110292579399626876673145973655499589511461246997918415789061007104460138512494482320447990340297658397484408864980456110705999472646111366209635893324217699718946810235560462327783965014575442944185825060779998457323263052776938697762793961740567075 7 0 102 188 3 0) = (pstate.mk 256 32178259214757268961703923629123928416275555312673160977474198988679159890203229651180173287988454300632328725040816631768344635244525928556286615611026384176615616526328722317261687228365996084254678748290070317020339071210134681425496998122078565691822519659586934084852317531069881216525293051993645701895296230338863156424199915994229852956755192078962190876855842235007789855899001848498558602866099161632658003045573569415905509725318083813740784390396976317191086191033900202128300377439461755290376824752521828927437834610607924338127227300630849945205042516464529761095958671896778370079657813415042583300225 7 0 159 92 3 0) := by decide

theorem scEs_w2 : pstate.pwhip (pstate.mk 256 5412315452636302474436291024770279581455756531481586520366363273968086990002327911394533675166777569625687556755214801800980865849424314620300078922801485602738399947929101895968935010134182288024746976282337401236857094438242322761536949918202023786393462693115760431099756076293368736783073778775350499230346466379330963601290895116008645877356536114018987518114501411716122093068811207604456728268386781829878284169421675261785182945269176600073694255642224880749319843890967595998701320364113516079915449755016520331245994452575055623319831442981917355934086503965902159212752730894766796201630837776582722259210 7 0 230 220 3 0) = (pstate.mk 256 32178259214757268961703923629123928416275555312673160977474198988679159890203229651180173287988454300632328725040816631768344635244525928556286615611026384176615616526328722317261687228365996084254678748290070317020339071210134681425496998122078565691822519659586934084852317531069881216525293051993645701895296230338863156424199915994229852956755192078962190876855842235007789855899001848498558602866099161632658003045573569415905509725318083813740784390396976317191086191033900202128300377439461755290376824752521828927437834610607924338127227300630849945205042516464529761095958671896778370079657813415042583300225 7 0 159 92 5 0) :=
  (pwhip_literal _ _ _ rfl scEs_i3 scEs_i4).trans (by decide)

theorem scEs_c2 : pstate.pcrush (pstate.mk 256 32178259214757268961703923629123928416275555312673160977474198988679159890203229651180173287988454300632328725040816631768344635244525928556286615611026384176615616526328722317261687228365996084254678748290070317020339071210134681425496998122078565691822519659586934084852317531069881216525293051993645701895296230338863156424199915994229852956755192078962190876855842235007789855899001848498558602866099161632658003045573569415905509725318083813740784390396976317191086191033900202128300377439461755290376824752521828927437834610607924338127227300630849945205042516464529761095958671896778370079657813415042583300225 7 0 159 92 5 0) = (pstate.mk 256 32178260619584269571711310520970138823962163096968427613158693178902008087201177168652787693345933098608197477408752641405399634668177927435690138157709915953881007027376321716871758516204438254124789202294933389725590465439132532761404937671992771132621076252814130870187066051577913874005607061166362451855978843963398804470255901293881388488591164276868787506423380132823130828468335956431259192562933604216064203956140934159537861975231857113984791196415171200183979320330483700098711171158772766836228195094908001262215532384762023065765002280121918574748737870814288458401008948751990465121863615210348196857985 7 0 159 92 5 0) := by decide

theorem scEs_i5 : iterP 256 (pstate.mk 256 32178260619584269571711310520970138823962163096968427613158693178902008087201177168652787693345933098608197477408752641405399634668177927435690138157709915953881007027376321716871758516204438254124789202294933389725590465439132532761404937671992771132621076252814130870187066051577913874005607061166362451855978843963398804470255901293881388488591164276868787506423380132823130828468335956431259192562933604216064203956140934159537861975231857113984791196415171200183979320330483700098711171158772766836228195094908001262215532384762023065765002280121918574748737870814288458401008948751990465121863615210348196857985 7 0 159 92 5 0) = (pstate.mk 256 30056885278700566338632250600713174827645075243821014727080538360818858468166386913309016797216211814837605326473853926640893973934363300322685718856598696626638696170954699652768885511241124129862421543524599996952730259771695767113431559415203465138738710957208496427364742954973185740371060532032892010095304811282246937858190260029644819947323550686911511773968867472168452861789903166772020781370964841949432979046492708001364802235133188292292631921265105304001787469916131769241156710584905498827439057849381900479241487465810143383811818451984210192543649161435150890666509176064601171983767123543666304221610 7 0 178 167 5 0) := by decide

theorem scEs_i6 : iterP 256 (pstate.mk 256 30056885278700566338632250600713174827645075243821014727080538360818858468166386913309016797216211814837605326473853926640893973934363300322685718856598696626638696170954699652768885511241124129862421543524599996952730259771695767113431559415203465138738710957208496427364742954973185740371060532032892010095304811282246937858190260029644819947323550686911511773968867472168452861789903166772020781370964841949432979046492708001364802235133188292292631921265105304001787469916131769241156710584905498827439057849381900479241487465810143383811818451984210192543649161435150890666509176064601171983767123543666304221610 7 0 178 167 5 0) = (pstate.mk 256 23656306114337479694570792643258325916211268797231183487067395437301678470203509279666728077096836018865380419979069451721027134735769086312623329830953353474840859130403795444048668970874662000264467466381956400289488629260267385879689735338191649431161175722139721223133300228672989789168695399374120408245870844094055069266499074561603629953576738368277309077274230335134466249517994351270493411745112672702144160374955133328959136496168874160704443768476880335409971453712962044935876650558686600125527177940744714681133499914489353969998629121286223716063815253233759652578634127123481752492410707386661293207750 7 0 174 238 5 0) := by decide

theorem scEs_w3 : pstate.pwhip (pstate.mk 256 32178260619584269571711310520970138823962163096968427613158693178902008087201177168652787693345933098608197477408752641405399634668177927435690138157709915953881007027376321716871758516204438254124789202294933389725590465439132532761404937671992771132621076252814130870187066051577913874005607061166362451855978843963398804470255901293881388488591164276868787506423380132823130828468335956431259192562933604216064203956140934159537861975231857113984791196415171200183979320330483700098711171158772766836228195094908001262215532384762023065765002280121918574748737870814288458401008948751990465121863615210348196857985 7 0 159 92 5 0) = (pstate.mk 256 23656306114337479694570792643258325916211268797231183487067395437301678470203509279666728077096836018865380419979069451721027134735769086312623329830953353474840859130403795444048668970874662000264467466381956400289488629260267385879689735338191649431161175722139721223133300228672989789168695399374120408245870844094055069266499074561603629953576738368277309077274230335134466249517994351270493411745112672702144160374955133328959136496168874160704443768476880335409971453712962044935876650558686600125527177940744714681133499914489353969998629121286223716063815253233759652578634127123481752492410707386661293207750 7 0 174 238 7 0) :=
  (pwhip_literal _ _ _ rfl scEs_i5 scEs_i6).trans (by decide)

theorem scEs_sh : pstate.pshuffle (pstate.mk 256 32316509077753586139510713445660514514047171580093496865901477602143224540557412340472969236184020377745408638077439397456141948699754273791418869985027499602243785773646750786158629119897527698459159582903277348091197804306308450975276589715725867107713970624879795449576651053772645338545136289129324889766234883445641018976132335741897159764840149119653771276907813571160033304787693843147444874609809261688832750070929796374458858650402858549228809223376095264624287270298650443481246599252759208372990930080621093578856003918444884232072106708273400521697686648585184510095221322955224082054385814039853223018625 7 0 0 0 1 0) = (pstate.mk 256 23656306114337479694570792643258325916211268797231183487067395437301678470203509279666728077096836018865380419979069451721027134735769086312623329830953353474840859130403795444048668970874662000264467466381956400289488629260267385879689735338191649431161175722139721223133300228672989789168695399374120408245870844094055069266499074561603629953576738368277309077274230335134466249517994351270493411745112672702144160374955133328959136496168874160704443768476880335409971453712962044935876650558686600125527177940744714681133499914489353969998629121286223716063815253233759652578634127123481752492410707386661293207750 0 0 174 238 7 0) :=
  (pshuffle_lit _ _ _ _ _ _ scEs_w1 scEs_c1 scEs_w2 scEs_c2 scEs_w3).trans (by decide)

theorem scE_pipe : pstate.psqueeze (pstate.pabsorbValue (pstate.pabsorbStop (pstate.mk 256 32316509077753586139510713445660514514047171580093496865901477602143224540557412340472969236184020377745408638077439397456141948699754273791418869985027499602243785773646750786158629119897527698459159582903277348091197804306308450975276589715725867107713970624879795449576651053772645338545136289129324889535590854242805888014462479763665286441653702721355837995097019445789010246329958143882468469960940546591726642195932118498231585261506331890905555712930793687948080006196232833985498850854020453114685502555558692159508678473065007301041585884392055241118981440260963868242904783885748062950623643981896143241345 4 0 0 0 1 0)) 1) 1 = ([230], (pstate.mk 256 23656306114337479694570792643258325916211268797231183487067395437301678470203509279666728077096836018865380419979069451721027134735769086312623329830953353474840859130403795444048668970874662000264467466381956400289488629260267385879689735338191649431161175722139721223133300228672989789168695399374120408245870844094055069266499074561603629953576738368277309077274230335134466249517994351270493411745112672702144160374955133328959136496168874160704443768476880335409971453712962044935876650558686600125527177940744714681133499914489353969998629121286223716063815253233759652578634127123481752492398025250113570681030 0 7 3 39 7 230)) := by
  have h1 : pstate.pabsorbStop (pstate.mk 256 32316509077753586139510713445660514514047171580093496865901477602143224540557412340472969236184020377745408638077439397456141948699754273791418869985027499602243785773646750786158629119897527698459159582903277348091197804306308450975276589715725867107713970624879795449576651053772645338545136289129324889535590854242805888014462479763665286441653702721355837995097019445789010246329958143882468469960940546591726642195932118498231585261506331890905555712930793687948080006196232833985498850854020453114685502555558692159508678473065007301041585884392055241118981440260963868242904783885748062950623643981896143241345 4 0 0 0 1 0) = (pstate.mk 256 32316509077753586139510713445660514514047171580093496865901477602143224540557412340472969236184020377745408638077439397456141948699754273791418869985027499602243785773646750786158629119897527698459159582903277348091197804306308450975276589715725867107713970624879795449576651053772645338545136289129324889535590854242805888014462479763665286441653702721355837995097019445789010246329958143882468469960940546591726642195932118498231585261506331890905555712930793687948080006196232833985498850854020453114685502555558692159508678473065007301041585884392055241118981440260963868242904783885748062950623643981896143241345 5 0 0 0 1 0) := by decide
  have h2 : pstate.pabsorbValue (pstate.mk 256 32316509077753586139510713445660514514047171580093496865901477602143224540557412340472969236184020377745408638077439397456141948699754273791418869985027499602243785773646750786158629119897527698459159582903277348091197804306308450975276589715725867107713970624879795449576651053772645338545136289129324889535590854242805888014462479763665286441653702721355837995097019445789010246329958143882468469960940546591726642195932118498231585261506331890905555712930793687948080006196232833985498850854020453114685502555558692159508678473065007301041585884392055241118981440260963868242904783885748062950623643981896143241345 5 0 0 0 1 0) 1 = (pstate.mk 256 32316509077753586139510713445660514514047171580093496865901477602143224540557412340472969236184020377745408638077439397456141948699754273791418869985027499602243785773646750786158629119897527698459159582903277348091197804306308450975276589715725867107713970624879795449576651053772645338545136289129324889766234883445641018976132335741897159764840149119653771276907813571160033304787693843147444874609809261688832750070929796374458858650402858549228809223376095264624287270298650443481246599252759208372990930080621093578856003918444884232072106708273400521697686648585184510095221322955224082054385814039853223018625 7 0 0 0 1 0) := by decide
  rw [h1, h2]
  unfold pstate.psqueeze
  rw [if_pos (by decide : ((pstate.mk 256 32316509077753586139510713445660514514047171580093496865901477602143224540557412340472969236184020377745408638077439397456141948699754273791418869985027499602243785773646750786158629119897527698459159582903277348091197804306308450975276589715725867107713970624879795449576651053772645338545136289129324889766234883445641018976132335741897159764840149119653771276907813571160033304787693843147444874609809261688832750070929796374458858650402858549228809223376095264624287270298650443481246599252759208372990930080621093578856003918444884232072106708273400521697686648585184510095221322955224082054385814039853223018625 7 0 0 0 1 0) : pstate).a > 0), scEs_sh]
  decide

theorem c3_abs : pstate.pabsorbValue (pstate.pabsorbStop (pstate.mk 256 32316509077753586139510713445660514514047171580093496865901477602143224540557412340472969236184020377745408638077439397456141948699754273791418869985027499602243785773646750786158629119897527698459159582903277348091197804306308450975276589715725867107713970624879795449576651053772645338545136289129326403509065092108109101077472046144122638474948527343653345105797020149055603954704727773430317796884279167058635246262041734914578626456397727386204475718614091025348906121070916929137541182355893615952208805117487445236884750886234300399097674869962426348425792929710270231641017897005896324246640151098893336183040 0 0 0 0 1 0)) 257 = (pstate.mk 256 32316509077753586139510713445660514514047171580093496865901477602143224540557412340472969236184020377745408638077439397456141948699754273791418869985027499602243785773646750786158629119897527698459159582903277348091197804306308450975276589715725867107713970624879795440890180549788361473516536381002113190721098676222678869502338341896049304310503481051768488351608126263621363184010883231525753709819005434647370032226315343730200319995345509998990654548060458669739075050939130458753684802097496310068751865001415167972585632166194130491190898968912935247703768200256781785368097874928047303817391127835096122425600 3 0 0 0 1 0) := by decide

theorem scG_i1 : iterP 256 (pstate.mk 256 32316509077753586139510713445660514514047171580093496865901477602143224540557412340472969236184020377745408638077439397456141948699754273791418869985027499602243785773646750786158629119897527698459159582903277348091197804306308450975276589715725867107713970624879795440890180549788361473516536381002113190721098676222678869502338341896049304310503481051768488351608126263621363184010883231525753709819005434647370032226315343730200319995345509998990654548060458669739075050939130458753684802097496310068751865001415167972585632166194130491190898968912935247703768200256781785368097874928047303817391127835096122425600 3 0 0 0 1 0) = (pstate.mk 256 9645415273629758680081250393696069077285154792278040265801328439945291382646070806208461659329195013707257365659744793026558214034371943194729825402705395853956737105774745523337628653943317720431460082503402768897070404670613354777547482501820550337852813355871597462850523429633792362248764098827040831436964781709576873012179637980373063556554451055856494719439960018043680744665634737348661109303185625632160509092397262709278323744891350498688196440164917380786687167414632518624024362012545349651507875049397739882287304636828098937114819122147044041492497215119056519202562934232458114173384804502381310214640 3 0 122 227 1 0) := by decide

theorem scG_i2 : iterP 256 (pstate.mk 256 9645415273629758680081250393696069077285154792278040265801328439945291382646070806208461659329195013707257365659744793026558214034371943194729825402705395853956737105774745523337628653943317720431460082503402768897070404670613354777547482501820550337852813355871597462850523429633792362248764098827040831436964781709576873012179637980373063556554451055856494719439960018043680744665634737348661109303185625632160509092397262709278323744891350498688196440164917380786687167414632518624024362012545349651507875049397739882287304636828098937114819122147044041492497215119056519202562934232458114173384804502381310214640 3 0 122 227 1 0) = (pstate.mk 256 126427583814254798700010358626425847080766185895748478764663594942661517676864447239812148955525296656148458310356451883179602087390493582380883432726455226109107689736829380862877466164815296506441899446532912478481237820412656134425602478862449452516045752621661635320420510376826569347744660998584097793807501210975674575033375342548199872987613881489305555768623910429166471532929585957402381401389270981498481334658511865176064475237835511068040370232173285856297168753182711747354661806577568432187389986705159184894734538732212427234927693971295337299557673703621410370091116829529806667169532591825533293705 3 0 81 239 1 0) := by decide

theorem scG_w1 : pstate.pwhip (pstate.mk 256 32316509077753586139510713445660514514047171580093496865901477602143224540557412340472969236184020377745408638077439397456141948699754273791418869985027499602243785773646750786158629119897527698459159582903277348091197804306308450975276589715725867107713970624879795440890180549788361473516536381002113190721098676222678869502338341896049304310503481051768488351608126263621363184010883231525753709819005434647370032226315343730200319995345509998990654548060458669739075050939130458753684802097496310068751865001415167972585632166194130491190898968912935247703768200256781785368097874928047303817391127835096122425600 3 0 0 0 1 0) = (pstate.mk 256 126427583814254798700010358626425847080766185895748478764663594942661517676864447239812148955525296656148458310356451883179602087390493582380883432726455226109107689736829380862877466164815296506441899446532912478481237820412656134425602478862449452516045752621661635320420510376826569347744660998584097793807501210975674575033375342548199872987613881489305555768623910429166471532929585957402381401389270981498481334658511865176064475237835511068040370232173285856297168753182711747354661806577568432187389986705159184894734538732212427234927693971295337299557673703621410370091116829529806667169532591825533293705 3 0 81 239 3 0) :=
  (pwhip_literal _ _ _ rfl scG_i1 scG_i2).trans (by decide)

theorem scG_c1 : pstate.pcrush (pstate.mk 256 126427583814254798700010358626425847080766185895748478764663594942661517676864447239812148955525296656148458310356451883179602087390493582380883432726455226109107689736829380862877466164815296506441899446532912478481237820412656134425602478862449452516045752621661635320420510376826569347744660998584097793807501210975674575033375342548199872987613881489305555768623910429166471532929585957402381401389270981498481334658511865176064475237835511068040370232173285856297168753182711747354661806577568432187389986705159184894734538732212427234927693971295337299557673703621410370091116829529806667169532591825533293705 3 0 81 239 3 0) = (pstate.mk 256 17336259740493586019841739429721154476496658337885806178239818653770063299815650031734811666226416820168947630711411923383064117842439270539690101829641142509845618843594624829384191407716413303593192600600141831662078055178131257884258857614353026686916914794055448417402432557306221155697179518428962013527884837044357924415554316862561394413838386329281782139568621952555861476225027231725921160316875677680143833602816765272202824111151630654264148169033186243382857708201023800651192544152079854148794615244806901285094373545424576213610462858125130978396925432346747799657592975851720589614703162595929683656705 3 0 81 239 3 0) := by decide

theorem scG_i3 : iterP 256 (pstate.mk 256 17336259740493586019841739429721154476496658337885806178239818653770063299815650031734811666226416820168947630711411923383064117842439270539690101829641142509845618843594624829384191407716413303593192600600141831662078055178131257884258857614353026686916914794055448417402432557306221155697179518428962013527884837044357924415554316862561394413838386329281782139568621952555861476225027231725921160316875677680143833602816765272202824111151630654264148169033186243382857708201023800651192544152079854148794615244806901285094373545424576213610462858125130978396925432346747799657592975851720589614703162595929683656705 3 0 81 239 3 0) = (pstate.mk 256 13574575706563450551904368005198438169390888401905460856117775903301120638219732917830680175820453408588349744541922888210816330339293748007556683699795813679713657591635458728227250671777473820118505710277996390317446778343227940412862874863489543784670288209772886955349903480746798526031424551783018209839177066234837832428751520948510235291568033919977987599777107888434072150269142585163456813838613308833755100993191991850100648936314051602179738526193479156746166168463939697129136002764415901890783433244958392993752850180371579067210938452618031718175571800042625732720066166552658260956633571070726352381425 3 0 59 120 3 0) := by decide

theorem scG_i4 : iterP 256 (pstate.mk 256 13574575706563450551904368005198438169390888401905460856117775903301120638219732917830680175820453408588349744541922888210816330339293748007556683699795813679713657591635458728227250671777473820118505710277996390317446778343227940412862874863489543784670288209772886955349903480746798526031424551783018209839177066234837832428751520948510235291568033919977987599777107888434072150269142585163456813838613308833755100993191991850100648936314051602179738526193479156746166168463939697129136002764415901890783433244958392993752850180371579067210938452618031718175571800042625732720066166552658260956633571070726352381425 3 0 59 120 3 0) = (pstate.mk 256 25159738359287986436509244858271256414198697585732177028916313113195412590187791517900657764855956811959387009990259809476591172113565013049415382060147681428654889050277904547633323182566809567193061893576808208766843509116464557155556872545130042887619454353929745646390644667285965984532989839008513968796483519510274031467570693294959352464024048461056306874840206462422492654858905787566540474745200048786601827308043157956140039011412065617822611219671212704012501495549506454238216449712503229189905796496626831078021033305656428762774356128841635232044169313732704300748794896406917632050492589743276752113260 3 0 153 18 3 0) := by decide

theorem scG_w2 : pstate.pwhip (pstate.mk 256 17336259740493586019841739429721154476496658337885806178239818653770063299815650031734811666226416820168947630711411923383064117842439270539690101829641142509845618843594624829384191407716413303593192600600141831662078055178131257884258857614353026686916914794055448417402432557306221155697179518428962013527884837044357924415554316862561394413838386329281782139568621952555861476225027231725921160316875677680143833602816765272202824111151630654264148169033186243382857708201023800651192544152079854148794615244806901285094373545424576213610462858125130978396925432346747799657592975851720589614703162595929683656705 3 0 81 239 3 0) = (pstate.mk 256 25159738359287986436509244858271256414198697585732177028916313113195412590187791517900657764855956811959387009990259809476591172113565013049415382060147681428654889050277904547633323182566809567193061893576808208766843509116464557155556872545130042887619454353929745646390644667285965984532989839008513968796483519510274031467570693294959352464024048461056306874840206462422492654858905787566540474745200048786601827308043157956140039011412065617822611219671212704012501495549506454238216449712503229189905796496626831078021033305656428762774356128841635232044169313732704300748794896406917632050492589743276752113260 3 0 153 18 5 0) :=
  (pwhip_literal _ _ _ rfl scG_i3 scG_i4).trans (by decide)

theorem scG_c2 : pstate.pcrush (pstate.mk 256 25159738359287986436509244858271256414198697585732177028916313113195412590187791517900657764855956811959387009990259809476591172113565013049415382060147681428654889050277904547633323182566809567193061893576808208766843509116464557155556872545130042887619454353929745646390644667285965984532989839008513968796483519510274031467570693294959352464024048461056306874840206462422492654858905787566540474745200048786601827308043157956140039011412065617822611219671212704012501495549506454238216449712503229189905796496626831078021033305656428762774356128841635232044169313732704300748794896406917632050492589743276752113260 3 0 153 18 5 0) = (pstate.mk 256 25159849133368132731993231681276934360675574880221788011392918425618090833543783762959522459208697523439471457092875382410678122540305733484063505146467284999122037171035325593769124732542321598422709932246282987185304517330961684599181555487261120700673296712818150334382016071331416580300481703647874044060669598345928648124502364188675407477003803495070614618238059122513688878539431110403037462693155707997131756655144291504600047985020724199092133190954388270475649846218739298872844153958773334018262270706680580260783610337683995644485518652767496929803680579709759773201518052573813670123140163663802542526060 3 0 153 18 5 0) := by decide

theorem scG_i5 : iterP 256 (pstate.mk 256 25159849133368132731993231681276934360675574880221788011392918425618090833543783762959522459208697523439471457092875382410678122540305733484063505146467284999122037171035325593769124732542321598422709932246282987185304517330961684599181555487261120700673296712818150334382016071331416580300481703647874044060669598345928648124502364188675407477003803495070614618238059122513688878539431110403037462693155707997131756655144291504600047985020724199092133190954388270475649846218739298872844153958773334018262270706680580260783610337683995644485518652767496929803680579709759773201518052573813670123140163663802542526060 3 0 153 18 5 0) = (pstate.mk 256 21298581615094350179787866017166693239862844165269245301860441826129585408480971540099165022074807877509843012163769874632060732292851067752869941746273465087565445411727199204577182694557565793848320230095867327396766550178549726987665078544598255512901214786687994344472119539378319751116667108128899652251611969080826435202047853051924061536572415740070058840368841412458690125651243764467478720083217847115264309023825481262456485142949189860771213539033365568734718737899021364882204636159541889171965724101973809394404271942283335412792707888870914019484179319266477882867549480720120501580391922990228509222155 3 0 240 136 5 0) := by decide

theorem scG_i6 : iterP 256 (pstate.mk 256 21298581615094350179787866017166693239862844165269245301860441826129585408480971540099165022074807877509843012163769874632060732292851067752869941746273465087565445411727199204577182694557565793848320230095867327396766550178549726987665078544598255512901214786687994344472119539378319751116667108128899652251611969080826435202047853051924061536572415740070058840368841412458690125651243764467478720083217847115264309023825481262456485142949189860771213539033365568734718737899021364882204636159541889171965724101973809394404271942283335412792707888870914019484179319266477882867549480720120501580391922990228509222155 3 0 240 136 5 0) = (pstate.mk 256 28008594873942214710839796910603793730868181125005515483789369430933112337050482614449920630005888999339850461620728440786814578978041052800212116310194639006291985096441278292973950605503683416265053474085660836037323081891309913575951281607127164795310240264970653098653056349056777177746655427824278625258142884822948061234959058818693396721370218097424796056673853976142190780070024586254995658992522633513408328088203736412591366771257387723351604907533639465898324590342452649320600010580304187957670222321413977621161098085239595906856121860815008589428771850296249443466591686161508862971507361835801126591180 3 0 225 94 5 0) := by decide

theorem scG_w3 : pstate.pwhip (pstate.mk 256 25159849133368132731993231681276934360675574880221788011392918425618090833543783762959522459208697523439471457092875382410678122540305733484063505146467284999122037171035325593769124732542321598422709932246282987185304517330961684599181555487261120700673296712818150334382016071331416580300481703647874044060669598345928648124502364188675407477003803495070614618238059122513688878539431110403037462693155707997131756655144291504600047985020724199092133190954388270475649846218739298872844153958773334018262270706680580260783610337683995644485518652767496929803680579709759773201518052573813670123140163663802542526060 3 0 153 18 5 0) = (pstate.mk 256 28008594873942214710839796910603793730868181125005515483789369430933112337050482614449920630005888999339850461620728440786814578978041052800212116310194639006291985096441278292973950605503683416265053474085660836037323081891309913575951281607127164795310240264970653098653056349056777177746655427824278625258142884822948061234959058818693396721370218097424796056673853976142190780070024586254995658992522633513408328088203736412591366771257387723351604907533639465898324590342452649320600010580304187957670222321413977621161098085239595906856121860815008589428771850296249443466591686161508862971507361835801126591180 3 0 225 94 7 0) :=
  (pwhip_literal _ _ _ rfl scG_i5 scG_i6).trans (by decide)

theorem scG_sh : pstate.pshuffle (pstate.mk 256 32316509077753586139510713445660514514047171580093496865901477602143224540557412340472969236184020377745408638077439397456141948699754273791418869985027499602243785773646750786158629119897527698459159582903277348091197804306308450975276589715725867107713970624879795440890180549788361473516536381002113190721098676222678869502338341896049304310503481051768488351608126263621363184010883231525753709819005434647370032226315343730200319995345509998990654548060458669739075050939130458753684802097496310068751865001415167972585632166194130491190898968912935247703768200256781785368097874928047303817391127835096122425600 3 0 0 0 1 0) = (pstate.mk 256 28008594873942214710839796910603793730868181125005515483789369430933112337050482614449920630005888999339850461620728440786814578978041052800212116310194639006291985096441278292973950605503683416265053474085660836037323081891309913575951281607127164795310240264970653098653056349056777177746655427824278625258142884822948061234959058818693396721370218097424796056673853976142190780070024586254995658992522633513408328088203736412591366771257387723351604907533639465898324590342452649320600010580304187957670222321413977621161098085239595906856121860815008589428771850296249443466591686161508862971507361835801126591180 0 0 225 94 7 0) :=
  (pshuffle_lit _ _ _ _ _ _ scG_w1 scG_c1 scG_w2 scG_c2 scG_w3).trans (by decide)

theorem c3_drip : (pstate.pdrip (pstate.mk 256 28008594873942214710839796910603793730868181125005515483789369430933112337050482614449920630005888999339850461620728440786814578978041052800212116310194639006291985096441278292973950605503683416265053474085660836037323081891309913575951281607127164795310240264970653098653056349056777177746655427824278625258142884822948061234959058818693396721370218097424796056673853976142190780070024586254995658992522633513408328088203736412591366771257387723351604907533639465898324590342452649320600010580304187957670222321413977621161098085239595906856121860815008589428771850296249443466591686161508862971507361835801126591180 0 0 225 94 7 0)).1 = 4 := by decide


/-! ### C1 -/

/-- The live accumulator after the first `Sum nil` on `NewHash 1`. -/
def c1SumLive : digest := (((NewHash 1).Sum []).map Prod.snd).getD (NewHash 1)

/-- The bytes of the first `Sum nil` on `NewHash 1`. -/
def c1First : List Nat := (((NewHash 1).Sum []).map Prod.fst).getD []

/-- The bytes of the second consecutive `Sum nil`. -/
def c1Second : List Nat := ((c1SumLive.Sum []).map Prod.fst).getD []

theorem bridge_init : packState (NewHash 1).s = (pstate.mk 256 32316509077753586139510713445660514514047171580093496865901477602143224540557412340472969236184020377745408638077439397456141948699754273791418869985027499602243785773646750786158629119897527698459159582903277348091197804306308450975276589715725867107713970624879795449576651053772645338545136289129326403509065092108109101077472046144122638474948527343653345105797020149055603954704727773430317796884279167058635246262041734914578626456397727386204475718614091025348906121070916929137541182355893615952208805117487445236884750886234300399097674869962426348425792929710270231641017897005896324246640151098893336183040 0 0 0 0 1 0) := by decide

theorem pack_init_val : pack (NewHash 1).s.s = 32316509077753586139510713445660514514047171580093496865901477602143224540557412340472969236184020377745408638077439397456141948699754273791418869985027499602243785773646750786158629119897527698459159582903277348091197804306308450975276589715725867107713970624879795449576651053772645338545136289129326403509065092108109101077472046144122638474948527343653345105797020149055603954704727773430317796884279167058635246262041734914578626456397727386204475718614091025348906121070916929137541182355893615952208805117487445236884750886234300399097674869962426348425792929710270231641017897005896324246640151098893336183040 := by decide

/-- C1 is violated by the code: in `Sum`, `s := *d.s` copies the registers
but the copied slice header still aliases the live backing array, so the
first `Sum nil` on a fresh size-1 accumulator rearranges the live array
(while the registers survive), and the second consecutive `Sum nil`
returns `[81]` instead of the first call's `[112]`. -/
theorem sum_aliasing_bug :
    c1SumLive.s.s ≠ (NewHash 1).s.s ∧
    c1First = [112] ∧ c1Second = [81] ∧ c1First ≠ c1Second := by
  have hg : Good (NewHash 1).s := Good_initSt 256
  obtain ⟨hbytes, hpack, hn, ha, hi, hj, hk, hw, hz, hsize⟩ :=
    sum_sim (d := NewHash 1) 1 rfl hg
  rw [bridge_init, scA_pipe] at hbytes hpack
  have hfirst : c1First = [112] := by
    show (((NewHash 1).Sum []).map Prod.fst).getD [] = [112]
    rw [hbytes]; decide
  have harr : c1SumLive.s.s ≠ (NewHash 1).s.s := by
    intro he
    have hpacked : pack c1SumLive.s.s = pack (NewHash 1).s.s := by rw [he]
    simp only [c1SumLive] at hpacked
    rw [hpack, pack_init_val] at hpacked
    exact absurd hpacked (by decide)
  have hgood1 : Good c1SumLive.s :=
    ⟨hn, SInv_hashStep HashOp.sum (SInv_initSt 256)⟩
  obtain ⟨hbytes2, _, _, _, _, _, _, _, _, _⟩ :=
    sum_sim (d := c1SumLive) 1 hsize hgood1
  have hP1 : packState c1SumLive.s = (pstate.mk 256 22396214741844620593611418816225311056169764235187206444291723239455175282839406674791165778862096172130772554599479848654595252386748546403113158097231863711943352817029492137157947556039805918596437489146223736606593185446153189536904463488826604400619766813149839795335878289669078644285080428541631556386898102632471182105395747652111222487820560049434420041344999315534676743163259116351110774451141302121467337294812865159351886296156482617696072752719540452005506777285541443129980448050386754573754830493446476198435213589643993891128598186489375664320695807827062875898526640454804439204163373164722612780435 0 0 0 0 1 0) :=
    packState_ext _ _ _ _ _ _ _ _ _ hn hpack ha hi hj hk hw hz
  rw [hP1, scB_pipe] at hbytes2
  have hsecond : c1Second = [81] := by
    show ((c1SumLive.Sum []).map Prod.fst).getD [] = [81]
    rw [hbytes2]; decide
  exact ⟨harr, hfirst, hsecond, by rw [hfirst, hsecond]; decide⟩

/-! ### C2 -/

/-- The accumulator after `Write [1]`. -/
def c2AfterA : digest := ((NewHash 1).Write [1]).2

/-- The live accumulator after `Write [1]; Sum nil`. -/
def c2Live1 : digest := ((c2AfterA.Sum []).map Prod.snd).getD c2AfterA

/-- The accumulator after `Write [1]; Sum nil; Write [2]`. -/
def c2AfterB : digest := (c2Live1.Write [2]).2

/-- The bytes of the second `Sum` in `Write [1]; Sum; Write [2]; Sum`. -/
def c2Second : List Nat := ((c2AfterB.Sum []).map Prod.fst).getD []

/-- The reference digest: `Write [1, 2]; Sum nil` on a fresh accumulator. -/
def c2Fresh : List Nat := ((((NewHash 1).Write [1, 2]).2.Sum []).map Prod.fst).getD []

theorem bridge_A : packState c2AfterA.s = (pstate.mk 256 32316509077753586139510713445660514514047171580093496865901477602143224540557412340472969236184020377745408638077439397456141948699754273791418869985027499602243785773646750786158629119897527698459159582903277348091197804306308450975276589715725867107713970624879795449576651053772645338545136289129326397549532580726045635364052408159426744057993044452012825834316399689059668326542298961011586081752052530905740014645480535168039000489672275125819302589407393777965471193355214534442659181446627461963055860547461202483351480551247316657404147330998687146193013224989897279149867790464821102649742467726238963368065 2 0 0 0 1 0) := by decide

theorem bridge_F : packState (((NewHash 1).Write [1, 2]).2).s = (pstate.mk 256 32316509077753586139510713445660514514047171580093496865901477602143224540557412340472969236184020377745408638077439397456141948699754273791418869985027499602243785773646750786158629119897527698459159582903277348091197804306308450975276589715725867107713970624879795449576651053772645338545136289129324889535590854242805888014462479763665286441653702721355837995097019445789010246329958143882468469960940546591726642195932118498231585261506331890905555712930793687948080006196232833985498850854020453114685502555558692159508678473065007301041585884392055241118981440260963868242904783885748062950623643981896143241345 4 0 0 0 1 0) := by decide

/-- C2 is violated by the code: because the first `Sum` mutates the shared
backing array, `Write [1]; Sum; Write [2]; Sum` returns `[113]` for the
second `Sum`, while the digest of the concatenated message `[1, 2]` on a
fresh accumulator of the same size is `[230]`. -/
theorem write_after_sum_bug :
    c2Second = [113] ∧ c2Fresh = [230] ∧ c2Second ≠ c2Fresh := by
  have hgA : Good c2AfterA.s :=
    ⟨rfl, SInv_absorb [1] (SInv_initSt 256)⟩
  obtain ⟨hbytes1, hpack1, hn1, ha1, hi1, hj1, hk1, hw1, hz1, hsize1⟩ :=
    sum_sim (d := c2AfterA) 1 rfl hgA
  rw [bridge_A, scC_pipe] at hpack1
  have hgL : Good c2Live1.s :=
    ⟨hn1, SInv_hashStep HashOp.sum (SInv_absorb [1] (SInv_initSt 256))⟩
  have hP2 : packState c2Live1.s = (pstate.mk 256 25485066727694757877416203679497729662419071353757388825655474945230030022166445597863762705069647020257295071295607947410375783217758343038348354078990569166845332763453589887604631263214999256390825311326803726176784736174153081487645453042095117873873836452744153241221004976151088092775570864802634343522779470963478982258928843188765760754730051701637343690774714259968133048426261052101657959818652679129087969186722018358083342675862776540651842750781796705449527238640747311504145656623769671023543600332906375857882824243136625785320639562887835681628286997503412405182741068705269602861426852573554054288475 2 0 0 0 1 0) :=
    packState_ext _ _ _ _ _ _ _ _ _ hn1 hpack1 ha1 hi1 hj1 hk1 hw1 hz1
  have hgB : Good c2AfterB.s := ⟨(n_absorb _ _).trans hgL.1, SInv_absorb [2] hgL.2⟩
  have hPB : packState c2AfterB.s = (pstate.mk 256 25485066727694757877416203679497729662419071353757388825655474945230030022166445597863762705069647020257295071295607947410375783217758343038348354078990569166845332763453589887604631263214999256390825311326803726176784736174153081487645453042095117873873836452744153241221004976151088092775570864802635957554774979384368229990427745771866371124452738065353305249017306870295684043804104568391734074842095438924661426391146147510862967362159751819873572103925877962193226273095343284813804724094153156730319535696536029636899784377090969974570576909653448486849242463578801333778260064004634837687764290555962001675355 4 0 0 0 1 0) := by
    show packState (c2Live1.s.absorb [2]) = _
    rw [sim_absorb [2] hgL, hP2, c2_absB]
  obtain ⟨hbytes2, _, _, _, _, _, _, _, _, _⟩ :=
    sum_sim (d := c2AfterB) 1 hsize1 hgB
  rw [hPB, scD_pipe] at hbytes2
  have hsecond : c2Second = [113] := by
    show ((c2AfterB.Sum []).map Prod.fst).getD [] = [113]
    rw [hbytes2]; decide
  have hgF : Good (((NewHash 1).Write [1, 2]).2).s :=
    ⟨rfl, SInv_absorb [1, 2] (SInv_initSt 256)⟩
  obtain ⟨hbytesF, _, _, _, _, _, _, _, _, _⟩ :=
    sum_sim (d := ((NewHash 1).Write [1, 2]).2) 1 rfl hgF
  rw [bridge_F, scE_pipe] at hbytesF
  have hfresh : c2Fresh = [230] := by
    show ((((NewHash 1).Write [1, 2]).2.Sum []).map Prod.fst).getD [] = [230]
    rw [hbytesF]; decide
  exact ⟨hsecond, hfresh, by rw [hsecond, hfresh]; decide⟩

/-! ### C3 counterexample -/

/-- Digest of the empty message at size 1. -/
def c3SmallBytes : List Nat := hashDigestBytes 1 []

/-- Digest of the empty message at size 257 (size differing by exactly 256). -/
def c3BigBytes : List Nat := hashDigestBytes 257 []

theorem dripN_take_one (m : Nat) (st : state) :
    (dripN (m + 1) st).1.take 1 = [st.drip.1] := by
  show (st.drip.1 :: (dripN m st.drip.2).1).take 1 = _
  simp

theorem bridge_init_absorb : packState ((state.initSt 256).absorb []) = (pstate.mk 256 32316509077753586139510713445660514514047171580093496865901477602143224540557412340472969236184020377745408638077439397456141948699754273791418869985027499602243785773646750786158629119897527698459159582903277348091197804306308450975276589715725867107713970624879795449576651053772645338545136289129326403509065092108109101077472046144122638474948527343653345105797020149055603954704727773430317796884279167058635246262041734914578626456397727386204475718614091025348906121070916929137541182355893615952208805117487445236884750886234300399097674869962426348425792929710270231641017897005896324246640151098893336183040 0 0 0 0 1 0) := by
  decide

/-- C3 is violated by the code: the high nibble absorbed for the size is
`size / 16` (not reduced mod 16), and `absorbNibble` reduces mod 256, so
sizes 0 and 256 absorb different domain-separation values
(`absorbValue 0 ≠ absorbValue 256` on the freshly initialized state), and
the concrete accumulators of sizes 1 and 257 — sizes differing by exactly
256 — disagree already on the first digest byte for the empty message:
`[112]` against `[4]`. -/
theorem size_alias_256_counterexample :
    (state.initSt 256).absorbValue 0 ≠ (state.initSt 256).absorbValue 256 ∧
    c3SmallBytes = [112] ∧ c3BigBytes.take 1 = [4] ∧
    c3SmallBytes ≠ c3BigBytes.take 1 := by
  have hg0 : Good ((state.initSt 256).absorb []) := Good_absorb [] (Good_initSt 256)
  have hg1 : Good ((state.initSt 256).absorb []).absorbStop := Good_absorbStop hg0
  have hsmall : c3SmallBytes = [112] := by
    have he : c3SmallBytes = hashDigestBytes ((1 : Nat) : Int) [] := rfl
    rw [he, hashDigestBytes_eq 1 []]
    have hg2 : Good (((state.initSt 256).absorb []).absorbStop.absorb [1]) :=
      Good_absorbValue 1 hg1
    rw [(sim_squeeze 1 hg2).1]
    have hX : packState (((state.initSt 256).absorb []).absorbStop.absorb [1]) =
        pstate.pabsorbValue (pstate.pabsorbStop (packState ((state.initSt 256).absorb []))) 1 := by
      show packState ((((state.initSt 256).absorb []).absorbStop).absorbValue 1) = _
      rw [sim_absorbValue 1 hg1, sim_absorbStop hg0]
    rw [hX, bridge_init_absorb, scA_pipe]
    decide
  have hbig : c3BigBytes.take 1 = [4] := by
    have he : c3BigBytes = hashDigestBytes ((257 : Nat) : Int) [] := rfl
    rw [he, hashDigestBytes_eq 257 [], ← List.map_take]
    have hgY : Good (((state.initSt 256).absorb []).absorbStop.absorb [257]) :=
      Good_absorbValue 257 hg1
    have hsq : ((((state.initSt 256).absorb []).absorbStop.absorb [257]).squeeze 257).1 =
        (dripN 257 (((state.initSt 256).absorb []).absorbStop.absorb [257]).shuffle).1 := by
      unfold state.squeeze
      rw [if_pos (show (((state.initSt 256).absorb []).absorbStop.absorb [257]).a > 0
        by decide)]
    rw [hsq, show (257 : Nat) = 256 + 1 from rfl, dripN_take_one 256]
    rw [(sim_drip (Good_shuffle hgY)).1]
    have hYsh : packState (((state.initSt 256).absorb []).absorbStop.absorb [257]).shuffle =
        pstate.pshuffle (pstate.pabsorbValue (pstate.pabsorbStop
          (packState ((state.initSt 256).absorb []))) 257) := by
      rw [sim_shuffle hgY]
      show pstate.pshuffle (packState ((((state.initSt 256).absorb
        []).absorbStop).absorbValue 257)) = _
      rw [sim_absorbValue 257 hg1, sim_absorbStop hg0]
    rw [hYsh, bridge_init_absorb, c3_abs, scG_sh, c3_drip]
    decide
  exact ⟨by decide, hsmall, hbig, by rw [hsmall, hbig]; decide⟩

/-- Witness for C3's amended theorem at size 0 and the empty message. -/
theorem size_alias_mod_4096_witness :
    hashDigestBytes ((0 : Nat) : Int) [] =
      (hashDigestBytes (((0 : Nat) : Int) + 4096) []).take 0 ∧
    (hashDigestBytes ((0 : Nat) : Int) []).length = 0 ∧
    (hashDigestBytes (((0 : Nat) : Int) + 4096) []).length = 0 + 4096 :=
  size_alias_mod_4096 0 []

/-- Witness for C5 at a concrete size and the empty operation sequence. -/
theorem permutation_invariant_witness :
    ((runHashOps (NewHash 32) []).s.s).Perm
      (List.range (runHashOps (NewHash 32) []).s.n) :=
  permutation_invariant.1 32 []

/-- Witness for C10 at the concrete argument 0. -/
theorem initSt_ignores_size_witness :
    state.initSt 0 = state.initSt 256 ∧
    state.initSt 0 =
      { n := 256, s := List.range 256, a := 0, i := 0, j := 0, k := 0, w := 1, z := 0 } ∧
    (state.initSt 0).s.length = 256 ∧
    (∀ sz : Int, (NewHash sz).s.n = 256) ∧
    (∀ key : List Nat, (NewStream key).s.n = 256) :=
  initSt_ignores_size 0

end Spritz
